import Mathlib

/-!
# Verification of the LiveTraffic airport-surface graph core (`LTApt.cpp`)

A shallow embedding, over `ℚ`, of the data model and operations of
`src/Src/LTApt.cpp` (classes `TaxiNode`, `RwyEndPt`, `TaxiEdge`, `Apt`, the
`apt.dat` parser and the runway selector) together with the declarations of
`src/unnamed/part_000` (`CoordCalc.h`: `distToLineTy`, `positionTy`,
`vectorTy`, `boundingBoxTy`).

Modelling conventions:
* C `double` values that the code explicitly tests with `std::isnan` are
  modelled as `Option ℚ` (`none` = NaN); all other doubles are plain `ℚ`.
* The geometry routines implemented in `CoordCalc.cpp` / the X-Plane SDK
  (`CoordAngle`, `CoordDistance`, `DistLatLonSqr`, `XPLMWorldToLocal`,
  `CoordVectorBetween`, `positionTy::operator+=`, the `boundingBoxTy`
  methods) are not part of the repository's source files; they are external
  collaborators of this core.  They enter the model as the fields of a
  `GeoFns` record, and theorems quantify over them (or pin their values at
  the concrete points a scenario uses).  `std::sqrt` from the C++ standard
  library is treated the same way.
* `std::string` is `List Char`; the input stream is a `List (List Char)`
  of lines, as produced by `safeGetline`.
-/

set_option maxHeartbeats 1600000
set_option maxRecDepth 100000

namespace LTApt

/-- A C `double` that may be NaN: `none` models NaN. -/
abbrev OptQ := Option ℚ

/-- `TaxiEdge::nodeTy` from LTApt.cpp: is an edge a runway or a taxiway? -/
inductive NodeTy where
  | UNKNOWN_WAY : NodeTy
  | RUN_WAY : NodeTy
  | TAXI_WAY : NodeTy
deriving DecidableEq, Repr

/-- `class TaxiNode` (LTApt.cpp): geographic position plus lazily computed
local coordinates `x`/`z`, all four doubles NaN-able (`Option ℚ`). -/
structure TaxiNode where
  lat : OptQ
  lon : OptQ
  x : OptQ
  z : OptQ
deriving DecidableEq, Repr

instance : Inhabited TaxiNode := ⟨⟨none, none, none, none⟩⟩

/-- `TaxiNode::HasGeoCoords`: both lat and lon are not NaN. -/
def TaxiNode.hasGeoCoords (n : TaxiNode) : Bool := n.lat.isSome && n.lon.isSome

/-- `TaxiNode::HasLocalCoords`: both x and z are not NaN. -/
def TaxiNode.hasLocalCoords (n : TaxiNode) : Bool := n.x.isSome && n.z.isSome

/-- `class RwyEndPt` (LTApt.cpp): a runway endpoint.  Its lat/lon always come
from a `positionTy` the code just computed, so they are plain `ℚ`; the
altitude is NaN until backfilled, hence `Option ℚ`. -/
structure RwyEndPt where
  id : List Char
  lat : ℚ
  lon : ℚ
  alt_m : OptQ
  x : OptQ
  z : OptQ
  y : OptQ
deriving DecidableEq, Repr

/-- View a runway endpoint as its `TaxiNode` base part (the C++ base class). -/
def RwyEndPt.toNode (re : RwyEndPt) : TaxiNode :=
  ⟨some re.lat, some re.lon, re.x, re.z⟩

/-- `class TaxiEdge` (LTApt.cpp): a typed connection between two node
indices, with heading `angle` and length `dist_m`. -/
structure TaxiEdge where
  type : NodeTy
  a : Nat
  b : Nat
  angle : ℚ
  dist_m : ℚ
deriving DecidableEq, Repr

/-- The `TaxiEdge` constructor (LTApt.cpp lines 167-176): normalizes the
edge so that `0 ≤ angle < 180` by swapping `a`/`b` and subtracting 180
when the raw angle is ≥ 180. -/
def mkTaxiEdge (t : NodeTy) (a b : Nat) (angle dist_m : ℚ) : TaxiEdge :=
  if angle ≥ 180 then ⟨t, b, a, angle - 180, dist_m⟩ else ⟨t, a, b, angle, dist_m⟩

/-- `positionTy` (CoordCalc.h): the seven doubles of the valarray plus the
ground flag and flight phase.  The claims never inspect NaN-ness of these
fields, so they are plain `ℚ` (`mergeCount` and the unit tags play no role
in this subsystem and are omitted). -/
structure PositionR where
  lat : ℚ
  lon : ℚ
  alt : ℚ
  ts : ℚ
  heading : ℚ
  pitch : ℚ
  roll : ℚ
  onGrnd : Nat
  flightPhase : Int
deriving DecidableEq, Repr

/-- `positionTy::onGrndE::GND_ON`. -/
def GND_ON : Nat := 2

/-- `LTAPIAircraft::FPH_TAXI` (LTAPI header, outside this repository's
files; the claims only use that the parser assigns it, never its value). -/
def FPH_TAXI : Int := 100

/-- `LTAPIAircraft::FPH_TOUCH_DOWN` (LTAPI header, outside this
repository's files; only its assignment matters to the claims). -/
def FPH_TOUCH_DOWN : Int := 200

/-- `vectorTy` (CoordCalc.h): angle in degrees and distance in meters (the
`vsi`/`speed` members are never consumed by this subsystem's paths). -/
structure VectorR where
  angle : ℚ
  dist : ℚ
deriving DecidableEq, Repr

/-- `boundingBoxTy` (CoordCalc.h): a north-west and a south-east corner. -/
structure BoundingBoxR where
  nw : PositionR
  se : PositionR
deriving DecidableEq, Repr

/-- A zero position, standing in for the default (all-NaN) `positionTy`;
its content is only ever consumed by the abstract `GeoFns` operations. -/
def pos0 : PositionR := ⟨0, 0, 0, 0, 0, 0, 0, 0, 0⟩

/-- The default-constructed bounding box. -/
def bbox0 : BoundingBoxR := ⟨pos0, pos0⟩

/-- Modelled from the spec: the external geometry collaborators.  Their
implementations (`CoordCalc.cpp`, the X-Plane SDK's
`XPLMWorldToLocal`/`XPLMLocalToWorld`, `std::sqrt`) are not part of the
repository's source files; the spec treats them as pure functions
("Coordinate system conversion … treated as two pure functions",
"distance/angle/heading math").  Theorems quantify over a `GeoFns` value or
fix one concretely. -/
structure GeoFns where
  /-- `CoordAngle(lat1,lon1,lat2,lon2)`: bearing in degrees. -/
  coordAngle : ℚ → ℚ → ℚ → ℚ → ℚ
  /-- `CoordDistance(lat1,lon1,lat2,lon2)`: great-circle distance, meters. -/
  coordDistance : ℚ → ℚ → ℚ → ℚ → ℚ
  /-- `DistLatLonSqr`: the cheap squared-distance estimator. -/
  distLatLonSqr : ℚ → ℚ → ℚ → ℚ → ℚ
  /-- `std::sqrt` on the rationals the run actually feeds it. -/
  sqrtQ : ℚ → ℚ
  /-- `XPLMWorldToLocal (lat, lon, alt) ↦ (x, y, z)`. -/
  worldToLocal : ℚ → ℚ → ℚ → ℚ × ℚ × ℚ
  /-- `XPLMLocalToWorld (x, y, z) ↦ (lat, lon, alt)`. -/
  localToWorld : ℚ × ℚ × ℚ → ℚ × ℚ × ℚ
  /-- `positionTy::between` = `CoordVectorBetween`. -/
  between : PositionR → PositionR → VectorR
  /-- `positionTy::operator+=` = `CoordPlusVector` (returning the moved
  position). -/
  plusVec : PositionR → VectorR → PositionR
  /-- `boundingBoxTy::enlarge_pos(lat, lon)`. -/
  enlargePos : BoundingBoxR → OptQ → OptQ → BoundingBoxR
  /-- `boundingBoxTy::enlarge(positionTy)`. -/
  enlargePosP : BoundingBoxR → PositionR → BoundingBoxR
  /-- `boundingBoxTy::enlarge_m(meter)`. -/
  enlargeM : BoundingBoxR → ℚ → BoundingBoxR
  /-- `boundingBoxTy::contains(positionTy)`. -/
  containsBB : BoundingBoxR → PositionR → Bool

/-- `DistLatLon` (CoordCalc.h): `sqrt` of the squared estimator. -/
def GeoFns.distLatLon (g : GeoFns) (lat1 lon1 lat2 lon2 : ℚ) : ℚ :=
  g.sqrtQ (g.distLatLonSqr lat1 lon1 lat2 lon2)

/-- Modelled from the spec: `HeadingNormalize(h) → [0..360)` (declared in
CoordCalc.h, implemented in the absent CoordCalc.cpp). -/
def hNormQ (h : ℚ) : ℚ := h - 360 * (⌊h / 360⌋ : ℤ)

/-- Modelled from the spec: `HeadingDiff(h1,h2)`, the minimal signed turn
from `h1` to `h2`, in `[-180,180]` (declared in CoordCalc.h, implemented in
the absent CoordCalc.cpp). -/
def headingDiffQ (h1 h2 : ℚ) : ℚ :=
  let d := hNormQ (h2 - h1)
  if d > 180 then d - 360 else d

/-- `struct distToLineTy` (CoordCalc.h lines 121-132): all-squared results
of the point-to-line distance computation. -/
structure DistToLine where
  dist2 : ℚ
  len2 : ℚ
  leg1_len2 : ℚ
  leg2_len2 : ℚ
deriving DecidableEq, Repr

/-- `distToLineTy::DistSqrOfBaseBeyondLine` (CoordCalc.h lines 130-131):
`max(leg1_len2, leg2_len2) - len2`. -/
def DistToLine.distSqrOfBaseBeyondLine (r : DistToLine) : ℚ :=
  max r.leg1_len2 r.leg2_len2 - r.len2

/-- Modelled from the spec: `DistPointToLineSqr` (declared in CoordCalc.h,
implemented in the absent CoordCalc.cpp).  Per the header's documentation,
`dist2` is the squared distance of the point to the infinite line, `len2`
the squared segment length, and `leg1_len2`/`leg2_len2` the squared
distances from the segment ends to the base point (the point on the line
closest to `P`).  With `A`, `B` the endpoints and `d = B - A`:
`base = A + ((P-A)·d / |d|²) d`, which gives the closed rational forms
below. -/
def distPointToLineSqr (p1 p2 a1 a2 b1 b2 : ℚ) : DistToLine :=
  let len2 := (b1 - a1) ^ 2 + (b2 - a2) ^ 2
  let dotA := (p1 - a1) * (b1 - a1) + (p2 - a2) * (b2 - a2)
  let dotB := (b1 - p1) * (b1 - a1) + (b2 - p2) * (b2 - a2)
  let leg1 := dotA ^ 2 / len2
  let leg2 := dotB ^ 2 / len2
  ⟨(p1 - a1) ^ 2 + (p2 - a2) ^ 2 - leg1, len2, leg1, leg2⟩

/-- Modelled from the spec: `DistResultToBaseLoc` (declared in CoordCalc.h,
implemented in the absent CoordCalc.cpp): the location of the base point on
the line, reconstructed from the squared results; `sqrt(leg1_len2/len2)` is
the parameter along `B - A`, negative exactly when the base lies beyond
endpoint `A` (then `leg2_len2` exceeds both `len2` and `leg1_len2`). -/
def distResultToBaseLoc (g : GeoFns) (a1 a2 b1 b2 : ℚ) (r : DistToLine) :
    ℚ × ℚ :=
  let t0 := g.sqrtQ (r.leg1_len2 / r.len2)
  let t := if r.leg2_len2 > r.len2 ∧ r.leg2_len2 > r.leg1_len2 then -t0 else t0
  (a1 + t * (b1 - a1), a2 + t * (b2 - a2))

/-- `class Apt` (LTApt.cpp): id, bounding box, altitude, and the three
node/edge sequences. -/
structure Apt where
  id : List Char
  bounds : BoundingBoxR
  alt_m : OptQ
  vecTaxiNodes : List TaxiNode
  vecRwyEndPts : List RwyEndPt
  vecTaxiEdges : List TaxiEdge
deriving DecidableEq, Repr

/-- `Apt(_id)`: the constructor, empty but for the id. -/
def mkApt (idStr : List Char) : Apt := ⟨idStr, bbox0, none, [], [], []⟩

/-- `Apt()`: the default-constructed airport. -/
def emptyApt : Apt := mkApt []

/-- `Apt::HasId`. -/
def Apt.hasId (apt : Apt) : Bool := apt.id ≠ []

/-- `Apt::HasTaxiWays`: any edges defined? -/
def Apt.hasTaxiWays (apt : Apt) : Bool := apt.vecTaxiEdges ≠ []

/-- `Apt::HasRwyEndpoints`. -/
def Apt.hasRwyEndpoints (apt : Apt) : Bool := apt.vecRwyEndPts ≠ []

/-- `Apt::IsValid` (LTApt.cpp line 230): id, some edge, some rwy endpoint. -/
def Apt.isValid (apt : Apt) : Bool :=
  apt.hasId && apt.hasTaxiWays && apt.hasRwyEndpoints

/-- `Apt::AddTaxiNode` (LTApt.cpp lines 247-252): enlarge the bounds,
append the node, return its index. -/
def addTaxiNode (g : GeoFns) (apt : Apt) (lat lon : OptQ) : Nat × Apt :=
  let apt' : Apt :=
    { apt with
      bounds := g.enlargePos apt.bounds lat lon
      vecTaxiNodes := apt.vecTaxiNodes ++ [⟨lat, lon, none, none⟩] }
  (apt'.vecTaxiNodes.length - 1, apt')

/-- `Apt::AddTaxiEdge` (LTApt.cpp lines 256-282): reject out-of-range
indices and nodes without geographic coordinates (returning `false`, no
mutation); otherwise compute the distance when it was not supplied
(`_dist = NAN`) and append one `TAXI_WAY` edge with the computed heading. -/
def addTaxiEdge (g : GeoFns) (apt : Apt) (n1 n2 : Nat) (d : OptQ) :
    Bool × Apt :=
  if n1 ≥ apt.vecTaxiNodes.length ∨ n2 ≥ apt.vecTaxiNodes.length then
    (false, apt)
  else
    let a := apt.vecTaxiNodes.getD n1 default
    let b := apt.vecTaxiNodes.getD n2 default
    match a.lat, a.lon, b.lat, b.lon with
    | some alat, some alon, some blat, some blon =>
      let dist := match d with
        | some q => q
        | none => g.distLatLon alat alon blat blon
      (true,
        { apt with
          vecTaxiEdges := apt.vecTaxiEdges ++
            [mkTaxiEdge .TAXI_WAY n1 n2 (g.coordAngle alat alon blat blon) dist] })
    | _, _, _, _ => (false, apt)

/-- `ART_RWY_TD_POINT_F`: modelled from the spec — "shifts each end inward
along that vector by its displacement plus 10% of the remaining
(non-displaced) length" (the constant lives in Constants.h, outside the
repository's files). -/
def ART_RWY_TD_POINT_F : ℚ := 1 / 10

/-- `positionTy(lat, lon, NAN, …, GND_ON)` as `AddRwyEnds` constructs it:
only lat/lon are ever consumed by this subsystem (the NaN members are
modelled as 0). -/
def posLLGndOn (lat lon : ℚ) : PositionR := ⟨lat, lon, 0, 0, 0, 0, 0, GND_ON, 0⟩

/-- `positionTy(lat, lon)` with all defaults (GND_UNKNOWN), as the parser's
runway branch constructs it for the bounding-box test. -/
def posLL (lat lon : ℚ) : PositionR := ⟨lat, lon, 0, 0, 0, 0, 0, 0, 0⟩

/-- `Apt::AddRwyEnds` (LTApt.cpp lines 483-514): move each raw end inward
by its displaced threshold plus `ART_RWY_TD_POINT_F` of the remaining
length, shrink the recorded length to `1 - 2·ART_RWY_TD_POINT_F` of the
remaining length, append both endpoints and one `RUN_WAY` edge. -/
def addRwyEnds (g : GeoFns) (apt : Apt)
    (lat1 lon1 displaced1 : ℚ) (id1 : List Char)
    (lat2 lon2 displaced2 : ℚ) (id2 : List Char) : Apt :=
  let re1 := posLLGndOn lat1 lon1
  let re2 := posLLGndOn lat2 lon2
  let vecRwy := g.between re1 re2
  let rem := vecRwy.dist - displaced1 - displaced2
  let re1m := g.plusVec re1 ⟨vecRwy.angle, displaced1 + rem * ART_RWY_TD_POINT_F⟩
  let re2m := g.plusVec re2 ⟨vecRwy.angle, -(displaced2 + rem * ART_RWY_TD_POINT_F)⟩
  let newDist := rem * (1 - 2 * ART_RWY_TD_POINT_F)
  let eps := apt.vecRwyEndPts ++
    [⟨id1, re1m.lat, re1m.lon, none, none, none, none⟩,
     ⟨id2, re2m.lat, re2m.lon, none, none, none, none⟩]
  { apt with
    bounds := g.enlargePosP (g.enlargePosP apt.bounds re1m) re2m
    vecRwyEndPts := eps
    vecTaxiEdges := apt.vecTaxiEdges ++
      [mkTaxiEdge .RUN_WAY (eps.length - 2) (eps.length - 1) vecRwy.angle newDist] }

/-- `TaxiEdge::GetA` (LTApt.cpp lines 637-643): runway edges index the
runway-endpoint sequence, all others the taxi-node sequence.  The C++
lookup is unchecked (`operator[]`); the model returns `none` out of range
(the situation claim C10 proves unreachable for built airports). -/
def getA (apt : Apt) (e : TaxiEdge) : Option TaxiNode :=
  if e.type = .RUN_WAY then (apt.vecRwyEndPts[e.a]?).map RwyEndPt.toNode
  else apt.vecTaxiNodes[e.a]?

/-- `TaxiEdge::GetB` (LTApt.cpp lines 646-652), see `getA`. -/
def getB (apt : Apt) (e : TaxiEdge) : Option TaxiNode :=
  if e.type = .RUN_WAY then (apt.vecRwyEndPts[e.b]?).map RwyEndPt.toNode
  else apt.vecTaxiNodes[e.b]?

/-- The type filter inside `Apt::FindEdgesForHeading`'s scan loop
(LTApt.cpp lines 348-349). -/
def edgeTypeOK (restrictTy : NodeTy) (e : TaxiEdge) : Bool :=
  restrictTy = NodeTy.UNKNOWN_WAY || restrictTy = e.type

/-- One heading sub-range of `Apt::FindEdgesForHeading` (LTApt.cpp lines
336-352): `std::lower_bound` on the heading-sorted edge vector (= drop the
edges with `angle < lo`) followed by a linear scan while `angle ≤ hi`,
keeping the edges passing the type filter. -/
def scanRange (edges : List TaxiEdge) (lo hi : ℚ) (restrictTy : NodeTy) :
    List TaxiEdge :=
  (((edges.dropWhile (fun e => e.angle < lo)).takeWhile
      (fun e => e.angle ≤ hi)).filter (edgeTypeOK restrictTy))

/-- `Apt::FindEdgesForHeading` (LTApt.cpp lines 301-356): normalize the
search heading once more into `[0,180)`, build the tolerance window, split
it into one or two sub-ranges when it falls under 0 or reaches past 180,
and concatenate the sub-ranges' scans. -/
def findEdgesForHeading (edges : List TaxiEdge) (headSearch tol : ℚ)
    (restrictTy : NodeTy) : List TaxiEdge :=
  let hs := if headSearch ≥ 180 then headSearch - 180 else headSearch
  let headBegin := hs - tol
  let headEnd := hs + tol
  if 0 ≤ headBegin ∧ headEnd < 180 then
    scanRange edges headBegin headEnd restrictTy
  else if headBegin < 0 then
    scanRange edges 0 headEnd restrictTy ++
      scanRange edges (headBegin + 180) 180 restrictTy
  else
    scanRange edges 0 (headEnd - 180) restrictTy ++
      scanRange edges headBegin 180 restrictTy

/-- The running best match of `Apt::FindClosestEdge`'s loop: edge, the
local coordinates of its direction-of-travel `from`/`to` nodes, and the
distance results. -/
structure BestCand where
  e : TaxiEdge
  fx : ℚ
  fz : ℚ
  tx : ℚ
  tz : ℚ
  d : DistToLine
deriving DecidableEq, Repr

/-- One iteration of `Apt::FindClosestEdge`'s candidate loop (LTApt.cpp
lines 396-426): resolve the from/to nodes honouring the inversion flag,
skip nodes without local coordinates, skip when not strictly closer than
the best so far (which starts at `maxDist²`), skip when the base point is
too far beyond the segment ends, else record the new best. -/
def candStep (maxDist2 pt_x pt_z : ℚ) (apt : Apt) (inverted : Bool)
    (best : Option BestCand) (e : TaxiEdge) : Option BestCand :=
  let fromN := if inverted then getB apt e else getA apt e
  let toN := if inverted then getA apt e else getB apt e
  match fromN, toN with
  | some fn, some tn =>
    match fn.x, fn.z, tn.x, tn.z with
    | some fx, some fz, some tx, some tz =>
      let d := distPointToLineSqr pt_x pt_z fx fz tx tz
      let bestD2 := match best with
        | none => maxDist2
        | some b => b.d.dist2
      if d.dist2 ≥ bestD2 then best
      else if d.distSqrOfBaseBeyondLine > maxDist2 then best
      else some ⟨e, fx, fz, tx, tz, d⟩
    | _, _, _, _ => best
  | _, _ => best

/-- `Apt::FindClosestEdge` (LTApt.cpp lines 365-446): convert the position
to local coordinates, fetch heading-matching candidate edges, scan them for
the closest admissible one, and return it with the base point's world
lat/lon (which the caller writes into `basePt`). -/
def findClosestEdge (g : GeoFns) (apt : Apt) (pos : PositionR)
    (maxDist tol : ℚ) : Option (TaxiEdge × ℚ × ℚ) :=
  let maxDist2 := maxDist ^ 2
  let ptl := g.worldToLocal pos.lat pos.lon pos.alt
  let pt_x := ptl.1
  let pt_y := ptl.2.1
  let pt_z := ptl.2.2
  let headSearch := hNormQ pos.heading
  let lst := findEdgesForHeading apt.vecTaxiEdges headSearch tol .UNKNOWN_WAY
  if lst = [] then none
  else
    let inverted := headSearch ≥ 180
    match lst.foldl (candStep maxDist2 pt_x pt_z apt inverted) none with
    | none => none
    | some b =>
      let base := distResultToBaseLoc g b.fx b.fz b.tx b.tz b.d
      let w := g.localToWorld (base.1, pt_y, base.2)
      some (b.e, w.1, w.2.1)

/-- `Apt::SnapToTaxiway` (LTApt.cpp lines 449-472): move `pos` onto the
closest matching edge; tag the flight phase as taxiing unless the matched
edge is a runway. -/
def snapToTaxiway (g : GeoFns) (apt : Apt) (pos : PositionR)
    (snapDist tol : ℚ) : Bool × PositionR :=
  match findClosestEdge g apt pos snapDist tol with
  | some (e, nlat, nlon) =>
    let pos1 := { pos with lat := nlat, lon := nlon }
    (true, if e.type ≠ .RUN_WAY then { pos1 with flightPhase := FPH_TAXI } else pos1)
  | none => (false, pos)

/-- `LTAptFind` (LTApt.cpp lines 1077-1083): the first airport whose
bounding box contains the position. -/
def ltAptFind (g : GeoFns) (apts : List Apt) (pos : PositionR) : Option Apt :=
  apts.find? (fun a => g.containsBB a.bounds pos)

/-- `LTAptSnap` (LTApt.cpp lines 1286-1302): nothing when snapping is
configured off (`snapDist ≤ 0`) or no airport's box contains the position;
otherwise `SnapToTaxiway`. -/
def ltAptSnap (g : GeoFns) (apts : List Apt) (snapDist tol : ℚ)
    (pos : PositionR) : Bool × PositionR :=
  if snapDist ≤ 0 then (false, pos)
  else
    match ltAptFind g apts pos with
    | none => (false, pos)
    | some apt => snapToTaxiway g apt pos snapDist tol

/-! ## The runway selector (`LTAptFindRwy`, LTApt.cpp lines 1174-1282) -/

/-- The best-match record of `LTAptFindRwy`'s loop: the matching runway
edge, the endpoint aimed at, its heading deviation and the arrival
timestamp. -/
structure RwyBest where
  e : TaxiEdge
  ep : RwyEndPt
  headDiff : ℚ
  arrivalTS : ℚ
deriving DecidableEq, Repr

/-- `GetRwyEP_B`/`GetRwyEP_A` selection of LTApt.cpp line 1227: the endpoint
aimed at, honouring the inversion flag.  The unchecked C++ vector lookup is
modelled with `none` out of range (unreachable for built airports, claim
C10). -/
def rwyEpOf (apt : Apt) (inverted : Bool) (e : TaxiEdge) : Option RwyEndPt :=
  apt.vecRwyEndPts[if inverted then e.b else e.a]?

/-- One iteration of `LTAptFindRwy`'s runway loop (LTApt.cpp lines
1224-1253).  The state is `(bestHeadingDiff, best)`; a candidate is skipped
when its altitude is unknown, when its heading deviation exceeds the best
so far, or when the implied vertical speed leaves `[vsi_min, vsi_max]`. -/
def rwyCandStep (g : GeoFns) (fromPos : PositionR)
    (speed vsi_min vsi_max : ℚ) (apt : Apt) (inverted : Bool)
    (st : ℚ × Option RwyBest) (e : TaxiEdge) : ℚ × Option RwyBest :=
  match rwyEpOf apt inverted e with
  | none => st
  | some ep =>
    match ep.alt_m with
    | none => st
    | some alt =>
      let bearing := g.coordAngle fromPos.lat fromPos.lon ep.lat ep.lon
      let hd := |headingDiffQ fromPos.heading bearing|
      if hd > st.1 then st
      else
        let dist := g.coordDistance fromPos.lat fromPos.lon ep.lat ep.lon
        let d_ts := dist / speed
        let vsi := (alt - fromPos.alt) / d_ts
        if vsi < vsi_min ∨ vsi > vsi_max then st
        else (hd, some ⟨e, ep, hd, fromPos.ts + d_ts⟩)

/-- The search loop of `LTAptFindRwy` (LTApt.cpp lines 1205-1255): for each
airport, the runway edges matching the (already `[0,180)`-normalized)
search heading within `maxHeadDiff`, folded through `rwyCandStep`. -/
def ltAptFindRwyCore (g : GeoFns) (apts : List Apt) (fromPos : PositionR)
    (speed vsi_min vsi_max maxHeadDiff : ℚ) : Option RwyBest :=
  let headSearch0 := hNormQ fromPos.heading
  let inverted := headSearch0 ≥ 180
  let headSearch := if headSearch0 ≥ 180 then headSearch0 - 180 else headSearch0
  (apts.foldl
    (fun st apt =>
      (findEdgesForHeading apt.vecTaxiEdges headSearch maxHeadDiff .RUN_WAY).foldl
        (rwyCandStep g fromPos speed vsi_min vsi_max apt inverted) st)
    (maxHeadDiff, none)).2

/-- `LTAptFindRwy` (LTApt.cpp lines 1174-1282).  The aircraft-model inputs:
`vsi_min = VSI_FINAL · ART_RWY_MAX_VSI_F · Ms_per_FTm`,
`vsi_max = VSI_FINAL / ART_RWY_MAX_VSI_F · Ms_per_FTm`, and the speed is
capped at `FLAPS_DOWN_SPEED · ART_APPR_SPEED_F / KT_per_M_per_S` (the
constants live in Constants.h, outside the repository's files, so the model
takes the model-specific limits as rationals).  Returns the synthesized
touchdown position, or `none` (the default-constructed `positionTy`) when
no candidate qualifies. -/
def ltAptFindRwy (g : GeoFns) (apts : List Apt) (fromPos : PositionR)
    (acSpeed flapsDownCap vsiFinal maxVsiF msPerFtm maxHeadDiff pitchFlare : ℚ) :
    Option PositionR :=
  let vsi_min := vsiFinal * maxVsiF * msPerFtm
  let vsi_max := vsiFinal / maxVsiF * msPerFtm
  let speed := min acSpeed flapsDownCap
  let inverted := hNormQ fromPos.heading ≥ 180
  match ltAptFindRwyCore g apts fromPos speed vsi_min vsi_max maxHeadDiff with
  | none => none
  | some b =>
    some
      { lat := b.ep.lat, lon := b.ep.lon, alt := b.ep.alt_m.getD 0,
        ts := b.arrivalTS,
        heading := b.e.angle + (if inverted then 180 else 0),
        pitch := pitchFlare, roll := 0, onGrnd := GND_ON,
        flightPhase := FPH_TOUCH_DOWN }

/-! ## Centerline thinning (`ReadOneTaxiLine`, LTApt.cpp lines 672-794) -/

/-- `APT_MIN_TAXI_SEGM_LEN_M2` (LTApt.cpp line 45): 10² m². -/
def APT_MIN_TAXI_SEGM_LEN_M2 : ℚ := 100

/-- The erase-or-advance loop of `ReadOneTaxiLine` (LTApt.cpp lines
734-752): while the iterator is not yet at the 3rd-last raw node, drop its
successor when the estimated squared distance is under the minimum segment
length, else add the successor as a taxi node with the connecting edge and
advance.  Returns the remaining nodes (exactly the last three, when the
input had at least three) along with the updated airport. -/
def thinLoop (g : GeoFns) : List (ℚ × ℚ) → Apt → List (ℚ × ℚ) × Apt
  | a :: b :: c :: d :: rest, apt =>
    let distEst := g.distLatLonSqr a.1 a.2 b.1 b.2
    if distEst < APT_MIN_TAXI_SEGM_LEN_M2 then
      thinLoop g (a :: c :: d :: rest) apt
    else
      let na := addTaxiNode g apt (some b.1) (some b.2)
      let ne := addTaxiEdge g na.2 (na.1 - 1) na.1 (some (g.sqrtQ distEst))
      thinLoop g (b :: c :: d :: rest) ne.2
  | l, apt => (l, apt)
termination_by l => l.length

/-- The node-processing part of `ReadOneTaxiLine` (LTApt.cpp lines
722-790): keep the first point, run the thinning loop, apply the dedicated
correction for the last three points, and add the final edge. -/
def processTaxiNodes (g : GeoFns) (vecNodes : List (ℚ × ℚ)) (apt : Apt) :
    Apt :=
  match vecNodes with
  | p0 :: p1 :: restNodes =>
    -- The first node is definitely used
    let apt1 := (addTaxiNode g apt (some p0.1) (some p0.2)).2
    -- Thinning between the first and the last three
    let thinned :=
      if restNodes.length ≥ 1 then thinLoop g (p0 :: p1 :: restNodes) apt1
      else (p0 :: p1 :: restNodes, apt1)
    -- For the last 3 nodes a <-> b <-> c decide whether b is dropped
    let corrected :
        List (ℚ × ℚ) × OptQ × Apt :=
      match thinned.1 with
      | [a, b, c] =>
        let ab := g.distLatLonSqr a.1 a.2 b.1 b.2
        let bc := g.distLatLonSqr b.1 b.2 c.1 c.2
        if ab < APT_MIN_TAXI_SEGM_LEN_M2 ∨ bc < APT_MIN_TAXI_SEGM_LEN_M2 then
          ([a, c], some (g.sqrtQ ab + g.sqrtQ bc), thinned.2)
        else
          let na := addTaxiNode g thinned.2 (some b.1) (some b.2)
          let ne := addTaxiEdge g na.2 (na.1 - 1) na.1 (some (g.sqrtQ ab))
          ([a, b, c], some (g.sqrtQ bc), ne.2)
      | l => (l, none, thinned.2)
    -- Add the final edge between the last two nodes
    match corrected.1.getLast? with
    | some z =>
      let y := corrected.1.getD (corrected.1.length - 2) (0, 0)
      let dLast := match corrected.2.1 with
        | some q => q
        | none => g.sqrtQ (g.distLatLonSqr y.1 y.2 z.1 z.2)
      let na := addTaxiNode g corrected.2.2 (some z.1) (some z.2)
      (addTaxiEdge g na.2 (na.1 - 1) na.1 (some dLast)).2
    | none => corrected.2.2
  | _ => apt

/-! ## The `apt.dat` parser (`ReadOneAptFile`, LTApt.cpp lines 797-949) -/

/-- Modelled from the spec: the C++ standard library's number parsers
`std::stoi` and `std::stod` applied to a token ("whitespace/tab-tokenized
fields; first token is a numeric line-type code").  Their code is outside
the repository's files, so the model quantifies over them. -/
structure ParseFns where
  stoi : List Char → ℤ
  stod : List Char → ℚ

/-- Helper for `strTokenize`: accumulate the current token (reversed). -/
def tokAux : List Char → List Char → List (List Char)
  | [], cur => if cur = [] then [] else [cur.reverse]
  | c :: rest, cur =>
    if c = ' ' ∨ c = '\t' then
      if cur = [] then tokAux rest [] else cur.reverse :: tokAux rest []
    else tokAux rest (c :: cur)

/-- Modelled from the spec: `str_tokenize(ln, " \t", true)` — split a line
on blanks and tabs, skipping empty fields (the utility lives outside the
repository's files; the spec: "line-oriented records, whitespace/tab-
tokenized fields"). -/
def strTokenize (l : List Char) : List (List Char) := tokAux l []

/-- The line-collecting loop of `ReadOneTaxiLine` (LTApt.cpp lines
676-720): consume lines while they are 111-116 records whose line type code
designates a taxi centerline (1, 7, 51 or 57), accumulating the raw points;
the first non-matching line ends the section and is handed back for
reprocessing (`none` when the input ran out). -/
def collectTaxiNodes (P : ParseFns) :
    List (List Char) → List (ℚ × ℚ) →
    Option (List Char) × List (List Char) × List (ℚ × ℚ)
  | [], acc => (none, [], acc)
  | ln :: rest, acc =>
    if ln = [] then collectTaxiNodes P rest acc
    else
      let fields := strTokenize ln
      if fields.length < 3 then (some ln, rest, acc)
      else
        let lnCod := P.stoi (fields.getD 0 [])
        if 111 ≤ lnCod ∧ lnCod ≤ 116 then
          let lnTypeCode :=
            if lnCod = 111 ∨ lnCod = 113 then
              if fields.length ≥ 4 then P.stoi (fields.getD 3 []) else 1
            else if lnCod = 112 ∨ lnCod = 114 then
              if fields.length ≥ 6 then P.stoi (fields.getD 5 []) else 1
            else 1
          if lnTypeCode = 1 ∨ lnTypeCode = 7 ∨ lnTypeCode = 51 ∨ lnTypeCode = 57 then
            collectTaxiNodes P rest
              (acc ++ [(P.stod (fields.getD 1 []), P.stod (fields.getD 2 []))])
          else (some ln, rest, acc)
        else (some ln, rest, acc)

/-- `ReadOneTaxiLine` (LTApt.cpp lines 672-794): collect the section's
centerline points, thin them into the airport's taxi network, and hand the
unconsumed line back. -/
def readOneTaxiLine (g : GeoFns) (P : ParseFns) (rest : List (List Char))
    (apt : Apt) : Option (List Char) × List (List Char) × Apt :=
  let c := collectTaxiNodes P rest []
  -- nodes are processed only when at least 2 were read
  (c.1, c.2.1, if c.2.2.length ≥ 2 then processTaxiNodes g c.2.2 apt else apt)

/-- Insertion into a heading-sorted edge list (model of the `std::sort` by
`TaxiEdge::CompHeadLess` in `Apt::AddApt`, LTApt.cpp lines 615-617). -/
def insertByAngle (e : TaxiEdge) : List TaxiEdge → List TaxiEdge
  | [] => [e]
  | f :: rest => if e.angle < f.angle then e :: f :: rest
                 else f :: insertByAngle e rest

/-- Sorting the edge vector by heading (see `insertByAngle`). -/
def sortEdgesByAngle (l : List TaxiEdge) : List TaxiEdge :=
  l.foldr insertByAngle []

/-- The registry `gmapApt`: airport id → airport. -/
abbrev Registry := List (List Char × Apt)

/-- `Apt::AddApt` (LTApt.cpp lines 605-634): enlarge the bounding box by
the snap-search margin, sort the edges by heading, and `map::emplace` the
airport under its id (no replacement of an existing key). -/
def addApt (g : GeoFns) (snapMargin : ℚ) (apt : Apt) (reg : Registry) :
    Registry :=
  let apt' := { apt with
    bounds := g.enlargeM apt.bounds snapMargin
    vecTaxiEdges := sortEdgesByAngle apt.vecTaxiEdges }
  match reg.lookup apt'.id with
  | some _ => reg
  | none => reg ++ [(apt'.id, apt')]

/-- LTApt.cpp lines 819-821: does a line begin a new airport record? -/
def isAptHeaderLine (ln : List Char) : Bool :=
  ln.length > 10 && ln[0]? = some '1' &&
    (ln[1]? = some ' ' || ln[1]? = some '\t')

/-- LTApt.cpp lines 844-848: is a line a runway description ("100 …")? -/
def isRwyLine (ln : List Char) : Bool :=
  ln.length > 20 && ln[0]? = some '1' && ln[1]? = some '0' &&
    ln[2]? = some '0' && (ln[3]? = some ' ' || ln[3]? = some '\t')

/-- LTApt.cpp lines 885-891: is a line the "120" taxi-centerline marker? -/
def isTaxiMarkerLine (ln : List Char) : Bool :=
  (ln.length = 3 && ln = ['1', '2', '0']) ||
    (ln.length ≥ 4 && ln[0]? = some '1' && ln[1]? = some '2' &&
      ln[2]? = some '0' && (ln[3]? = some ' ' || ln[3]? = some '\t'))

/-- The state threaded through `ReadOneAptFile`'s loop. -/
structure ParseState where
  apt : Apt
  reg : Registry
deriving Repr

/-- One dispatch of `ReadOneAptFile`'s loop body on a non-empty line
(LTApt.cpp lines 818-896), without the recursion: returns the updated
state, the still-unconsumed input, and an optional line to reprocess. -/
def dispatchLine (g : GeoFns) (P : ParseFns) (box : BoundingBoxR)
    (snapMargin : ℚ) (ln : List Char) (rest : List (List Char))
    (st : ParseState) :
    Option (List Char) × List (List Char) × ParseState :=
  if isAptHeaderLine ln then
    -- close out the previous in-progress airport
    let reg1 := if st.apt.isValid then addApt g snapMargin st.apt st.reg
                else st.reg
    -- (a moved-from / freshly reset airport is the empty one)
    let fields := strTokenize ln
    let apt2 :=
      if fields.length ≥ 5 ∧ (reg1.lookup (fields.getD 4 [])).isNone then
        mkApt (fields.getD 4 [])
      else emptyApt
    (none, rest, ⟨apt2, reg1⟩)
  else if st.apt.hasId && isRwyLine ln then
    let fields := strTokenize ln
    if fields.length = 26 then
      let lat := P.stod (fields.getD 9 [])
      let lon := P.stod (fields.getD 10 [])
      if -90 ≤ lat ∧ lat ≤ 90 ∧ -180 ≤ lon ∧ lon < 180 then
        if st.apt.hasTaxiWays || g.containsBB box (posLL lat lon) then
          (none, rest,
            ⟨addRwyEnds g st.apt
              lat lon (P.stod (fields.getD 11 [])) (fields.getD 8 [])
              (P.stod (fields.getD 18 [])) (P.stod (fields.getD 19 []))
              (P.stod (fields.getD 20 [])) (fields.getD 17 []),
             st.reg⟩)
        else
          -- airport is outside the bounding box: mark it uninteresting
          (none, rest, ⟨emptyApt, st.reg⟩)
      else (none, rest, st)
    else (none, rest, st)
  else if st.apt.hasRwyEndpoints && isTaxiMarkerLine ln then
    let r := readOneTaxiLine g P rest st.apt
    (r.1, r.2.1, ⟨r.2.2, st.reg⟩)
  else (none, rest, st)

/-- The line loop of `ReadOneAptFile` (LTApt.cpp lines 803-944), fuel-
indexed: each iteration either reprocesses the pending line a sub-parser
handed back or fetches a fresh one; empty lines are skipped.  The C++ loop
always terminates (every iteration consumes input or clears the pending
line); the fuel only serves structural recursion, and the theorems hold for
every fuel value. -/
def readAptLoop (g : GeoFns) (P : ParseFns) (box : BoundingBoxR)
    (snapMargin : ℚ) :
    Nat → Option (List Char) → List (List Char) → ParseState → ParseState
  | 0, _, _, st => st
  | fuel + 1, pending, lines, st =>
    match pending with
    | some ln =>
      if ln = [] then readAptLoop g P box snapMargin fuel none lines st
      else
        let r := dispatchLine g P box snapMargin ln lines st
        readAptLoop g P box snapMargin fuel r.1 r.2.1 r.2.2
    | none =>
      match lines with
      | [] => st
      | ln :: rest =>
        if ln = [] then readAptLoop g P box snapMargin fuel none rest st
        else
          let r := dispatchLine g P box snapMargin ln rest st
          readAptLoop g P box snapMargin fuel r.1 r.2.1 r.2.2

/-- `ReadOneAptFile` (LTApt.cpp lines 797-949): run the line loop starting
from a fresh airport, then flush the last in-progress airport into the
registry when it is valid. -/
def readOneAptFile (g : GeoFns) (P : ParseFns) (box : BoundingBoxR)
    (snapMargin : ℚ) (lines : List (List Char)) (reg : Registry) : Registry :=
  let st := readAptLoop g P box snapMargin (2 * lines.length + 2) none lines
    ⟨emptyApt, reg⟩
  if st.apt.isValid then addApt g snapMargin st.apt st.reg else st.reg

/-! ## Building airports through the public construction operations -/

/-- One call to a public construction operation of `Apt` (the three
operations the parser uses to populate an airport). -/
inductive BuildOp where
  | node (lat lon : OptQ) : BuildOp
  | edge (n1 n2 : Nat) (d : OptQ) : BuildOp
  | rwy (lat1 lon1 displaced1 : ℚ) (id1 : List Char)
        (lat2 lon2 displaced2 : ℚ) (id2 : List Char) : BuildOp

/-- Apply one construction operation. -/
def applyOp (g : GeoFns) (apt : Apt) : BuildOp → Apt
  | .node lat lon => (addTaxiNode g apt lat lon).2
  | .edge n1 n2 d => (addTaxiEdge g apt n1 n2 d).2
  | .rwy lat1 lon1 d1 id1 lat2 lon2 d2 id2 =>
    addRwyEnds g apt lat1 lon1 d1 id1 lat2 lon2 d2 id2

/-- An airport built from empty by a sequence of construction calls. -/
def buildApt (g : GeoFns) (ops : List BuildOp) : Apt :=
  ops.foldl (applyOp g) emptyApt

/-- The index discipline of an edge: its two indices address the sequence
selected by its type (runway endpoints for `RUN_WAY`, taxi nodes
otherwise, exactly as `GetA`/`GetB` dereference them). -/
def edgeIndicesOK (apt : Apt) (e : TaxiEdge) : Prop :=
  if e.type = NodeTy.RUN_WAY then
    e.a < apt.vecRwyEndPts.length ∧ e.b < apt.vecRwyEndPts.length
  else
    e.a < apt.vecTaxiNodes.length ∧ e.b < apt.vecTaxiNodes.length

/-! ## Concrete test fixtures -/

/-- A trivial `GeoFns` instance (all collaborators constant); concrete
scenarios override the fields they exercise. -/
def gTriv : GeoFns where
  coordAngle := fun _ _ _ _ => 0
  coordDistance := fun _ _ _ _ => 0
  distLatLonSqr := fun _ _ _ _ => 0
  sqrtQ := fun _ => 0
  worldToLocal := fun a b c => (a, b, c)
  localToWorld := fun p => p
  between := fun _ _ => ⟨0, 0⟩
  plusVec := fun p _ => p
  enlargePos := fun b _ _ => b
  enlargePosP := fun b _ => b
  enlargeM := fun b _ => b
  containsBB := fun _ _ => true

/-! ## Theorems -/

/-- The search heading after `FindEdgesForHeading`'s (and `LTAptFindRwy`'s)
final fold into `[0,180)`. -/
def normHS (h : ℚ) : ℚ := if h ≥ 180 then h - 180 else h

/-- Specification-side predicate for claim C1: the edge angle, taken
modulo 180, falls inside the tolerance window `[hs - tol, hs + tol]`. -/
def wrapWindowHit (hs tol a : ℚ) : Bool :=
  (decide (hs - tol ≤ a) && decide (a ≤ hs + tol)) ||
  (decide (hs - tol ≤ a - 180) && decide (a - 180 ≤ hs + tol)) ||
  (decide (hs - tol ≤ a + 180) && decide (a + 180 ≤ hs + tol))

lemma takeWhile_angle_eq_filter (lo hi : ℚ) :
    ∀ l : List TaxiEdge, l.Pairwise (fun a b => a.angle ≤ b.angle) →
      (∀ e ∈ l, lo ≤ e.angle) →
      l.takeWhile (fun e => e.angle ≤ hi) =
        l.filter (fun e => decide (lo ≤ e.angle) && decide (e.angle ≤ hi)) := by
  intro l
  induction l with
  | nil => intro _ _; rfl
  | cons c t ih =>
    intro hs hall
    rcases List.pairwise_cons.mp hs with ⟨hc, ht⟩
    by_cases hhi : c.angle ≤ hi
    · rw [List.takeWhile_cons_of_pos (by simpa using hhi),
        List.filter_cons_of_pos
          (by simp [hhi, hall c (List.mem_cons_self c t)]),
        ih ht (fun e he => hall e (List.mem_cons_of_mem c he))]
    · rw [List.takeWhile_cons_of_neg (by simpa using hhi),
        List.filter_cons_of_neg (by simp [hhi]),
        List.filter_eq_nil_iff.mpr]
      intro e he
      have : hi < e.angle := lt_of_lt_of_le (lt_of_not_le hhi) (hc e he)
      simp [not_le.mpr this]

lemma dropWhile_takeWhile_eq_filter (lo hi : ℚ) :
    ∀ l : List TaxiEdge, l.Pairwise (fun a b => a.angle ≤ b.angle) →
      (l.dropWhile (fun e => e.angle < lo)).takeWhile (fun e => e.angle ≤ hi) =
        l.filter (fun e => decide (lo ≤ e.angle) && decide (e.angle ≤ hi)) := by
  intro l
  induction l with
  | nil => intro _; rfl
  | cons c t ih =>
    intro hs
    rcases List.pairwise_cons.mp hs with ⟨hc, ht⟩
    by_cases hlo : c.angle < lo
    · rw [List.dropWhile_cons_of_pos (by simpa using hlo),
        List.filter_cons_of_neg (by simp [not_le.mpr hlo]), ih ht]
    · rw [List.dropWhile_cons_of_neg (by simpa using hlo)]
      refine takeWhile_angle_eq_filter lo hi (c :: t) hs ?_
      intro e he
      rcases List.mem_cons.mp he with rfl | he
      · exact le_of_not_lt hlo
      · exact le_trans (le_of_not_lt hlo) (hc e he)

lemma scanRange_eq_filter (lo hi : ℚ) (r : NodeTy)
    (l : List TaxiEdge) (hs : l.Pairwise (fun a b => a.angle ≤ b.angle)) :
    scanRange l lo hi r =
      l.filter (fun e =>
        edgeTypeOK r e && (decide (lo ≤ e.angle) && decide (e.angle ≤ hi))) := by
  unfold scanRange
  rw [dropWhile_takeWhile_eq_filter lo hi l hs, List.filter_filter]

lemma filter_append_disjoint (p q : TaxiEdge → Bool) (x : ℚ)
    (hp : ∀ e, p e = true → e.angle ≤ x) (hq : ∀ e, q e = true → x < e.angle) :
    ∀ l : List TaxiEdge, l.Pairwise (fun a b => a.angle ≤ b.angle) →
      l.filter p ++ l.filter q = l.filter (fun e => p e || q e) := by
  intro l
  induction l with
  | nil => intro _; rfl
  | cons c t ih =>
    intro hs
    rcases List.pairwise_cons.mp hs with ⟨hc, ht⟩
    by_cases hqc : q c = true
    · have hxc : x < c.angle := hq c hqc
      have hpnone : ∀ e ∈ c :: t, p e = false := by
        intro e he
        cases hpe : p e with
        | false => rfl
        | true =>
          exfalso
          rcases List.mem_cons.mp he with rfl | he'
          · exact absurd (hp e hpe) (not_le.mpr hxc)
          · exact absurd (hp e hpe) (not_le.mpr (lt_of_lt_of_le hxc (hc e he')))
      rw [List.filter_eq_nil_iff.mpr (by intro e he; simp [hpnone e he]),
        List.nil_append]
      refine List.filter_congr ?_
      intro e he
      rw [hpnone e he, Bool.false_or]
    · by_cases hpc : p c = true
      · have e1 : List.filter p (c :: t) = c :: List.filter p t :=
          List.filter_cons_of_pos (by simpa using hpc)
        have e2 : List.filter q (c :: t) = List.filter q t :=
          List.filter_cons_of_neg (by simpa using hqc)
        have e3 : List.filter (fun e => p e || q e) (c :: t)
            = c :: List.filter (fun e => p e || q e) t :=
          List.filter_cons_of_pos (by simp [hpc])
        rw [e1, e2, e3, List.cons_append, ih ht]
      · have e1 : List.filter p (c :: t) = List.filter p t :=
          List.filter_cons_of_neg (by simpa using hpc)
        have e2 : List.filter q (c :: t) = List.filter q t :=
          List.filter_cons_of_neg (by simpa using hqc)
        have e3 : List.filter (fun e => p e || q e) (c :: t)
            = List.filter (fun e => p e || q e) t :=
          List.filter_cons_of_neg (by simp [hpc, hqc])
        rw [e1, e2, e3, ih ht]

lemma wrapHit_cross0 (hs tol a : ℚ) (hhs0 : 0 ≤ hs) (ht0 : 0 ≤ tol)
    (ht90 : tol < 90) (hb : hs - tol < 0) (ha0 : 0 ≤ a) (ha180 : a < 180) :
    wrapWindowHit hs tol a =
      ((decide ((0:ℚ) ≤ a) && decide (a ≤ hs + tol)) ||
       (decide (hs - tol + 180 ≤ a) && decide (a ≤ (180:ℚ)))) := by
  have he180 : hs + tol < 180 := by linarith
  rw [Bool.eq_iff_iff]
  simp only [wrapWindowHit, Bool.or_eq_true, Bool.and_eq_true, decide_eq_true_eq]
  constructor
  · rintro ((⟨h1, h2⟩ | ⟨h1, h2⟩) | ⟨h1, h2⟩)
    · exact Or.inl ⟨ha0, h2⟩
    · exact Or.inr ⟨by linarith, by linarith⟩
    · exact absurd h2 (not_le.mpr (by linarith))
  · rintro (⟨h1, h2⟩ | ⟨h1, h2⟩)
    · exact Or.inl (Or.inl ⟨by linarith, h2⟩)
    · exact Or.inl (Or.inr ⟨by linarith, by linarith⟩)

lemma wrapHit_cross180 (hs tol a : ℚ) (hhs180 : hs < 180) (ht0 : 0 ≤ tol)
    (hb : 0 ≤ hs - tol) (he : 180 ≤ hs + tol) (ha0 : 0 ≤ a) (ha180 : a < 180) :
    wrapWindowHit hs tol a =
      ((decide ((0:ℚ) ≤ a) && decide (a ≤ hs + tol - 180)) ||
       (decide (hs - tol ≤ a) && decide (a ≤ (180:ℚ)))) := by
  rw [Bool.eq_iff_iff]
  simp only [wrapWindowHit, Bool.or_eq_true, Bool.and_eq_true, decide_eq_true_eq]
  constructor
  · rintro ((⟨h1, h2⟩ | ⟨h1, h2⟩) | ⟨h1, h2⟩)
    · exact Or.inr ⟨h1, by linarith⟩
    · exact absurd h1 (not_le.mpr (by linarith))
    · exact Or.inl ⟨ha0, by linarith⟩
  · rintro (⟨h1, h2⟩ | ⟨h1, h2⟩)
    · exact Or.inr ⟨by linarith, by linarith⟩
    · exact Or.inl (Or.inl ⟨h1, by linarith⟩)

/-- **C1** (amended): for every airport whose edge sequence is sorted
ascending by normalized heading (angles in `[0,180)`), and every search
heading whose tolerance window crosses 0 or 180 after normalization,
`FindEdgesForHeading` — *provided the tolerance is below 90°, so the two
split sub-ranges are disjoint* — returns exactly the edges whose angle lies
in the wrapped window: the union of the two split sub-ranges, with no
duplicates and no omissions. -/
theorem C1_findEdgesForHeading_wraparound (edges : List TaxiEdge)
    (h tol : ℚ) (r : NodeTy)
    (hsort : edges.Pairwise (fun a b => a.angle ≤ b.angle))
    (hang : ∀ e ∈ edges, 0 ≤ e.angle ∧ e.angle < 180)
    (hh0 : 0 ≤ h) (hh360 : h < 360) (ht0 : 0 ≤ tol) (ht90 : tol < 90)
    (hcross : normHS h - tol < 0 ∨ 180 ≤ normHS h + tol) :
    findEdgesForHeading edges h tol r =
      edges.filter
        (fun e => edgeTypeOK r e && wrapWindowHit (normHS h) tol e.angle) := by
  have hhs0 : 0 ≤ normHS h := by unfold normHS; split <;> linarith
  have hhs180 : normHS h < 180 := by unfold normHS; split <;> linarith
  unfold findEdgesForHeading
  dsimp only
  rw [show (if h ≥ 180 then h - 180 else h) = normHS h from rfl]
  rcases hcross with hcb | hce
  · -- the window falls under 0
    rw [if_neg (by push_neg; intro c1; exfalso; linarith), if_pos hcb]
    rw [scanRange_eq_filter _ _ _ _ hsort, scanRange_eq_filter _ _ _ _ hsort,
      filter_append_disjoint _ _ (normHS h + tol)
        (by intro e hpe
            simp only [Bool.and_eq_true, decide_eq_true_eq] at hpe
            exact hpe.2.2)
        (by intro e hqe
            simp only [Bool.and_eq_true, decide_eq_true_eq] at hqe
            linarith [hqe.2.1])
        edges hsort]
    refine List.filter_congr ?_
    intro e he
    rcases hang e he with ⟨ha0, ha180⟩
    rw [wrapHit_cross0 (normHS h) tol e.angle hhs0 ht0 ht90 hcb ha0 ha180]
    cases edgeTypeOK r e <;> simp
  · -- the window reaches past 180
    have hb0 : 0 ≤ normHS h - tol := by linarith
    rw [if_neg (by push_neg; intro _; linarith), if_neg (by push_neg; linarith)]
    rw [scanRange_eq_filter _ _ _ _ hsort, scanRange_eq_filter _ _ _ _ hsort,
      filter_append_disjoint _ _ (normHS h + tol - 180)
        (by intro e hpe
            simp only [Bool.and_eq_true, decide_eq_true_eq] at hpe
            exact hpe.2.2)
        (by intro e hqe
            simp only [Bool.and_eq_true, decide_eq_true_eq] at hqe
            linarith [hqe.2.1])
        edges hsort]
    refine List.filter_congr ?_
    intro e he
    rcases hang e he with ⟨ha0, ha180⟩
    rw [wrapHit_cross180 (normHS h) tol e.angle hhs180 ht0 hb0 hce ha0 ha180]
    cases edgeTypeOK r e <;> simp

/-- Witness for C1: a search heading of 5° with tolerance 10° (window
`[-5,15]`, crossing 0) matches exactly the edges at normalized headings 8°
and 178° — both returned, once each. -/
theorem C1_findEdgesForHeading_wraparound_witness :
    findEdgesForHeading
      [⟨.TAXI_WAY, 0, 1, 8, 10⟩, ⟨.TAXI_WAY, 2, 3, 178, 12⟩] 5 10 .UNKNOWN_WAY =
      [⟨.TAXI_WAY, 0, 1, 8, 10⟩, ⟨.TAXI_WAY, 2, 3, 178, 12⟩] :=
  (C1_findEdgesForHeading_wraparound
    [⟨.TAXI_WAY, 0, 1, 8, 10⟩, ⟨.TAXI_WAY, 2, 3, 178, 12⟩] 5 10 .UNKNOWN_WAY
    (by with_unfolding_all decide) (by with_unfolding_all decide)
    (by norm_num) (by norm_num) (by norm_num) (by norm_num)
    (by with_unfolding_all decide)).trans (by with_unfolding_all decide)

/-- Counterexample to C1 as stated: with search heading 5° and tolerance
100° the window `[-95,105]` crosses 0 and the two split sub-ranges
(`[0,105]` and `[85,180]`) overlap; the single edge at normalized heading
100° lies in both and `FindEdgesForHeading` returns it twice — a
duplicate, where the claim promises a duplicate-free union for every
window crossing 0. -/
theorem C1_findEdgesForHeading_counterexample :
    findEdgesForHeading [⟨.TAXI_WAY, 0, 1, 100, 5⟩] 5 100 .UNKNOWN_WAY =
      [⟨.TAXI_WAY, 0, 1, 100, 5⟩, ⟨.TAXI_WAY, 0, 1, 100, 5⟩] := by
  with_unfolding_all decide

/-- **C6**: the `TaxiEdge` constructor folds every raw heading (raw
headings are bearings in `[0,360)`) into `[0,180)`, subtracting 180 and
swapping the two endpoint roles exactly when the raw heading is ≥ 180; so
construction at `h` and at `h + 180` yields the same stored heading with
the endpoints' roles consistently swapped. -/
theorem C6_edge_heading_normalization (t : NodeTy) (a b : Nat) (h d : ℚ)
    (hh0 : 0 ≤ h) (hh360 : h < 360) :
    (0 ≤ (mkTaxiEdge t a b h d).angle ∧ (mkTaxiEdge t a b h d).angle < 180) ∧
    (180 ≤ h → mkTaxiEdge t a b h d = ⟨t, b, a, h - 180, d⟩) ∧
    (h < 180 → mkTaxiEdge t a b h d = ⟨t, a, b, h, d⟩) ∧
    (h < 180 →
      (mkTaxiEdge t a b (h + 180) d).angle = (mkTaxiEdge t a b h d).angle ∧
      (mkTaxiEdge t a b (h + 180) d).a = (mkTaxiEdge t a b h d).b ∧
      (mkTaxiEdge t a b (h + 180) d).b = (mkTaxiEdge t a b h d).a) := by
  rcases le_or_lt 180 h with hc | hc
  · have e1 : mkTaxiEdge t a b h d = ⟨t, b, a, h - 180, d⟩ := by
      unfold mkTaxiEdge
      rw [if_pos hc]
    refine ⟨?_, fun _ => e1, fun hlt => absurd hlt (by linarith),
      fun hlt => absurd hlt (by linarith)⟩
    rw [e1]
    dsimp only
    exact ⟨by linarith, by linarith⟩
  · have e1 : mkTaxiEdge t a b h d = ⟨t, a, b, h, d⟩ := by
      unfold mkTaxiEdge
      rw [if_neg (by linarith)]
    have e2 : mkTaxiEdge t a b (h + 180) d = ⟨t, b, a, h, d⟩ := by
      unfold mkTaxiEdge
      rw [if_pos (by linarith)]
      exact congrArg (fun x => ({ type := t, a := b, b := a, angle := x, dist_m := d } : TaxiEdge)) (by ring)
    refine ⟨?_, fun hge => absurd hge (by linarith), fun _ => e1, fun _ => ?_⟩
    · rw [e1]
      dsimp only
      exact ⟨hh0, hc⟩
    · rw [e1, e2]
      exact ⟨rfl, rfl, rfl⟩

/-- Witness for C6 at raw heading 195°: the stored heading is 15°
(within `[0,180)`) and the endpoint roles are swapped. -/
theorem C6_edge_heading_normalization_witness :
    (0 ≤ (mkTaxiEdge .TAXI_WAY 4 7 195 9).angle ∧
      (mkTaxiEdge .TAXI_WAY 4 7 195 9).angle < 180) ∧
    (180 ≤ (195:ℚ) → mkTaxiEdge .TAXI_WAY 4 7 195 9 = ⟨.TAXI_WAY, 7, 4, 195 - 180, 9⟩) ∧
    ((195:ℚ) < 180 → mkTaxiEdge .TAXI_WAY 4 7 195 9 = ⟨.TAXI_WAY, 4, 7, 195, 9⟩) ∧
    ((195:ℚ) < 180 →
      (mkTaxiEdge .TAXI_WAY 4 7 (195 + 180) 9).angle = (mkTaxiEdge .TAXI_WAY 4 7 195 9).angle ∧
      (mkTaxiEdge .TAXI_WAY 4 7 (195 + 180) 9).a = (mkTaxiEdge .TAXI_WAY 4 7 195 9).b ∧
      (mkTaxiEdge .TAXI_WAY 4 7 (195 + 180) 9).b = (mkTaxiEdge .TAXI_WAY 4 7 195 9).a) :=
  C6_edge_heading_normalization .TAXI_WAY 4 7 195 9 (by norm_num) (by norm_num)

/-- **C7**: `AddTaxiEdge` returns `false` and leaves the airport (nodes,
runway endpoints, edges, bounding box — the whole record) unchanged
whenever an index is out of range of the taxi-node sequence or a referenced
node lacks valid geographic coordinates; otherwise it appends exactly one
`TAXI_WAY` edge, computing the heading (and the distance when none was
supplied), and returns `true` — it is a total function, never an error. -/
theorem C7_addTaxiEdge_contract (g : GeoFns) (apt : Apt) (i j : Nat)
    (d : OptQ) :
    ((i ≥ apt.vecTaxiNodes.length ∨ j ≥ apt.vecTaxiNodes.length ∨
        (apt.vecTaxiNodes.getD i default).hasGeoCoords = false ∨
        (apt.vecTaxiNodes.getD j default).hasGeoCoords = false) →
      addTaxiEdge g apt i j d = (false, apt)) ∧
    (i < apt.vecTaxiNodes.length → j < apt.vecTaxiNodes.length →
      (apt.vecTaxiNodes.getD i default).hasGeoCoords = true →
      (apt.vecTaxiNodes.getD j default).hasGeoCoords = true →
      addTaxiEdge g apt i j d =
        (true,
          { apt with
            vecTaxiEdges := apt.vecTaxiEdges ++
              [mkTaxiEdge .TAXI_WAY i j
                (g.coordAngle ((apt.vecTaxiNodes.getD i default).lat.getD 0)
                  ((apt.vecTaxiNodes.getD i default).lon.getD 0)
                  ((apt.vecTaxiNodes.getD j default).lat.getD 0)
                  ((apt.vecTaxiNodes.getD j default).lon.getD 0))
                (d.getD
                  (g.distLatLon ((apt.vecTaxiNodes.getD i default).lat.getD 0)
                    ((apt.vecTaxiNodes.getD i default).lon.getD 0)
                    ((apt.vecTaxiNodes.getD j default).lat.getD 0)
                    ((apt.vecTaxiNodes.getD j default).lon.getD 0)))] })) := by
  constructor
  · intro hbad
    unfold addTaxiEdge
    by_cases hrange : i ≥ apt.vecTaxiNodes.length ∨ j ≥ apt.vecTaxiNodes.length
    · rw [if_pos hrange]
    · rw [if_neg hrange]
      push_neg at hrange
      have hb' : (apt.vecTaxiNodes.getD i default).hasGeoCoords = false ∨
          (apt.vecTaxiNodes.getD j default).hasGeoCoords = false := by
        rcases hbad with hb | hb | hb | hb
        · exact absurd hrange.1 (not_lt.mpr hb)
        · exact absurd hrange.2 (not_lt.mpr hb)
        · exact Or.inl hb
        · exact Or.inr hb
      unfold TaxiNode.hasGeoCoords at hb'
      dsimp only
      cases hlat1 : (apt.vecTaxiNodes.getD i default).lat with
      | none => rfl
      | some alat =>
        cases hlon1 : (apt.vecTaxiNodes.getD i default).lon with
        | none => rfl
        | some alon =>
          cases hlat2 : (apt.vecTaxiNodes.getD j default).lat with
          | none => rfl
          | some blat =>
            cases hlon2 : (apt.vecTaxiNodes.getD j default).lon with
            | none => rfl
            | some blon =>
              exfalso
              rcases hb' with hb | hb
              · rw [hlat1, hlon1] at hb
                simp at hb
              · rw [hlat2, hlon2] at hb
                simp at hb
  · intro hi hj hgi hgj
    unfold addTaxiEdge
    rw [if_neg (by push_neg; exact ⟨hi, hj⟩)]
    unfold TaxiNode.hasGeoCoords at hgi hgj
    rw [Bool.and_eq_true] at hgi hgj
    obtain ⟨alat, ha1⟩ := Option.isSome_iff_exists.mp hgi.1
    obtain ⟨alon, ha2⟩ := Option.isSome_iff_exists.mp hgi.2
    obtain ⟨blat, hb1⟩ := Option.isSome_iff_exists.mp hgj.1
    obtain ⟨blon, hb2⟩ := Option.isSome_iff_exists.mp hgj.2
    dsimp only
    rw [ha1, ha2, hb1, hb2]
    cases d <;> simp [Option.getD]

/-- Fixture for the C7 witness: two nodes with coordinates, a third
without. -/
def aptC7 : Apt :=
  { id := ['X'], bounds := bbox0, alt_m := none,
    vecTaxiNodes :=
      [⟨some 10, some 20, none, none⟩, ⟨some 11, some 21, none, none⟩,
       ⟨none, some 2, none, none⟩],
    vecRwyEndPts := [], vecTaxiEdges := [] }

/-- Witness for C7: an out-of-range index and a node without coordinates
are rejected without mutation; a good call appends exactly the one edge
and returns `true`. -/
theorem C7_addTaxiEdge_contract_witness :
    addTaxiEdge gTriv aptC7 0 5 none = (false, aptC7) ∧
    addTaxiEdge gTriv aptC7 0 2 none = (false, aptC7) ∧
    addTaxiEdge gTriv aptC7 0 1 (some 7) =
      (true, { aptC7 with vecTaxiEdges := [⟨.TAXI_WAY, 0, 1, 0, 7⟩] }) := by
  refine ⟨?_, ?_, ?_⟩ <;> with_unfolding_all decide

/-- Fixture for C5's concrete scenario: the two raw runway ends are 2000 m
apart at bearing 90°, and moving a position by a vector adds the vector's
distance to the latitude coordinate (a toy planar motion; the real
`CoordPlusVector` lives outside the repository's files). -/
def gRwy : GeoFns :=
  { gTriv with
    between := fun _ _ => ⟨90, 2000⟩
    plusVec := fun p v => { p with lat := p.lat + v.dist } }

/-- **C5**: `AddRwyEnds` moves each raw end inward along the runway vector
by its displaced-threshold distance plus 10% of the remaining non-displaced
length, records the connecting `RUN_WAY` edge's distance as 80% of that
remaining length, and appends exactly two runway endpoints and one edge
(leaving the taxi nodes alone).  Concretely, for a 2000 m runway with zero
displaced thresholds, each end moves 200 m inward and the recorded edge
distance is 1600 m. -/
theorem C5_addRwyEnds_inset (g : GeoFns) (apt : Apt)
    (lat1 lon1 d1 lat2 lon2 d2 : ℚ) (id1 id2 : List Char) :
    ((addRwyEnds g apt lat1 lon1 d1 id1 lat2 lon2 d2 id2).vecRwyEndPts =
        apt.vecRwyEndPts ++
          [⟨id1,
            (g.plusVec (posLLGndOn lat1 lon1)
              ⟨(g.between (posLLGndOn lat1 lon1) (posLLGndOn lat2 lon2)).angle,
                d1 + ((g.between (posLLGndOn lat1 lon1) (posLLGndOn lat2 lon2)).dist
                  - d1 - d2) * ART_RWY_TD_POINT_F⟩).lat,
            (g.plusVec (posLLGndOn lat1 lon1)
              ⟨(g.between (posLLGndOn lat1 lon1) (posLLGndOn lat2 lon2)).angle,
                d1 + ((g.between (posLLGndOn lat1 lon1) (posLLGndOn lat2 lon2)).dist
                  - d1 - d2) * ART_RWY_TD_POINT_F⟩).lon,
            none, none, none, none⟩,
           ⟨id2,
            (g.plusVec (posLLGndOn lat2 lon2)
              ⟨(g.between (posLLGndOn lat1 lon1) (posLLGndOn lat2 lon2)).angle,
                -(d2 + ((g.between (posLLGndOn lat1 lon1) (posLLGndOn lat2 lon2)).dist
                  - d1 - d2) * ART_RWY_TD_POINT_F)⟩).lat,
            (g.plusVec (posLLGndOn lat2 lon2)
              ⟨(g.between (posLLGndOn lat1 lon1) (posLLGndOn lat2 lon2)).angle,
                -(d2 + ((g.between (posLLGndOn lat1 lon1) (posLLGndOn lat2 lon2)).dist
                  - d1 - d2) * ART_RWY_TD_POINT_F)⟩).lon,
            none, none, none, none⟩] ∧
      (addRwyEnds g apt lat1 lon1 d1 id1 lat2 lon2 d2 id2).vecTaxiEdges =
        apt.vecTaxiEdges ++
          [mkTaxiEdge .RUN_WAY apt.vecRwyEndPts.length
            (apt.vecRwyEndPts.length + 1)
            (g.between (posLLGndOn lat1 lon1) (posLLGndOn lat2 lon2)).angle
            (((g.between (posLLGndOn lat1 lon1) (posLLGndOn lat2 lon2)).dist
              - d1 - d2) * (1 - 2 * ART_RWY_TD_POINT_F))] ∧
      (addRwyEnds g apt lat1 lon1 d1 id1 lat2 lon2 d2 id2).vecTaxiNodes =
        apt.vecTaxiNodes) ∧
    -- the 2000 m / zero-displacement scenario: ends move 200 m inward,
    -- the recorded edge distance is 1600 m = 2000 m × 0.8
    ((addRwyEnds gRwy emptyApt 0 0 0 ['0', '4'] 1 1 0 ['2', '2']).vecRwyEndPts =
        [⟨['0', '4'], 200, 0, none, none, none, none⟩,
         ⟨['2', '2'], -199, 1, none, none, none, none⟩] ∧
      (addRwyEnds gRwy emptyApt 0 0 0 ['0', '4'] 1 1 0 ['2', '2']).vecTaxiEdges =
        [⟨.RUN_WAY, 0, 1, 90, 1600⟩]) := by
  constructor
  · unfold addRwyEnds
    dsimp only
    have h2 : ∀ l : List RwyEndPt, ∀ x y : RwyEndPt,
        (l ++ [x, y]).length - 2 = l.length ∧
        (l ++ [x, y]).length - 1 = l.length + 1 := by
      intro l x y
      simp only [List.length_append, List.length_cons, List.length_nil]
      omega
    refine ⟨rfl, ?_, rfl⟩
    rw [(h2 _ _ _).1, (h2 _ _ _).2]
  · constructor <;> with_unfolding_all decide

/-- `aptWF apt`: every edge of the airport satisfies the index discipline
(the C10 invariant). -/
def aptWF (apt : Apt) : Prop := ∀ e ∈ apt.vecTaxiEdges, edgeIndicesOK apt e

lemma mkTaxiEdge_type (t : NodeTy) (a b : Nat) (ang d : ℚ) :
    (mkTaxiEdge t a b ang d).type = t := by
  unfold mkTaxiEdge
  split <;> rfl

lemma mkTaxiEdge_idx (t : NodeTy) (a b : Nat) (ang d : ℚ) :
    ((mkTaxiEdge t a b ang d).a = a ∧ (mkTaxiEdge t a b ang d).b = b) ∨
    ((mkTaxiEdge t a b ang d).a = b ∧ (mkTaxiEdge t a b ang d).b = a) := by
  unfold mkTaxiEdge
  split
  · exact Or.inr ⟨rfl, rfl⟩
  · exact Or.inl ⟨rfl, rfl⟩

lemma edgeIndicesOK_mono {apt apt' : Apt} (e : TaxiEdge)
    (hn : apt.vecTaxiNodes.length ≤ apt'.vecTaxiNodes.length)
    (hr : apt.vecRwyEndPts.length ≤ apt'.vecRwyEndPts.length) :
    edgeIndicesOK apt e → edgeIndicesOK apt' e := by
  unfold edgeIndicesOK
  split <;> exact fun h => ⟨lt_of_lt_of_le h.1 (by assumption),
    lt_of_lt_of_le h.2 (by assumption)⟩

lemma aptWF_addTaxiNode (g : GeoFns) (apt : Apt) (lat lon : OptQ)
    (h : aptWF apt) : aptWF (addTaxiNode g apt lat lon).2 := by
  intro e he
  unfold addTaxiNode at he ⊢
  refine edgeIndicesOK_mono e (by simp) (by simp) (h e ?_)
  simpa using he

lemma aptWF_addTaxiEdge (g : GeoFns) (apt : Apt) (i j : Nat) (d : OptQ)
    (h : aptWF apt) : aptWF (addTaxiEdge g apt i j d).2 := by
  unfold addTaxiEdge
  by_cases hrange : i ≥ apt.vecTaxiNodes.length ∨ j ≥ apt.vecTaxiNodes.length
  · rw [if_pos hrange]
    exact h
  · rw [if_neg hrange]
    push_neg at hrange
    dsimp only
    cases (apt.vecTaxiNodes.getD i default).lat with
    | none => exact h
    | some alat =>
      cases (apt.vecTaxiNodes.getD i default).lon with
      | none => exact h
      | some alon =>
        cases (apt.vecTaxiNodes.getD j default).lat with
        | none => exact h
        | some blat =>
          cases (apt.vecTaxiNodes.getD j default).lon with
          | none => exact h
          | some blon =>
            intro e he
            dsimp only at he
            rw [List.mem_append] at he
            rcases he with he | he
            · exact edgeIndicesOK_mono e (by simp) (by simp) (h e he)
            · rw [List.mem_singleton] at he
              subst he
              unfold edgeIndicesOK
              rw [if_neg (by rw [mkTaxiEdge_type]; intro hcon; cases hcon)]
              rcases mkTaxiEdge_idx .TAXI_WAY i j
                  (g.coordAngle alat alon blat blon)
                  (match d with
                    | some q => q
                    | none => g.distLatLon alat alon blat blon) with
                ⟨h1, h2⟩ | ⟨h1, h2⟩
              · rw [h1, h2]
                exact ⟨hrange.1, hrange.2⟩
              · rw [h1, h2]
                exact ⟨hrange.2, hrange.1⟩

lemma aptWF_addRwyEnds (g : GeoFns) (apt : Apt) (lat1 lon1 d1 : ℚ)
    (id1 : List Char) (lat2 lon2 d2 : ℚ) (id2 : List Char) (h : aptWF apt) :
    aptWF (addRwyEnds g apt lat1 lon1 d1 id1 lat2 lon2 d2 id2) := by
  intro e he
  unfold addRwyEnds at he ⊢
  dsimp only at he ⊢
  rw [List.mem_append] at he
  rcases he with he | he
  · exact edgeIndicesOK_mono e (by simp) (by simp) (h e he)
  · rw [List.mem_singleton] at he
    subst he
    unfold edgeIndicesOK
    rw [if_pos (by rw [mkTaxiEdge_type])]
    rcases mkTaxiEdge_idx .RUN_WAY _ _ _ _ with ⟨h1, h2⟩ | ⟨h1, h2⟩ <;>
      rw [h1, h2] <;> constructor <;>
      · simp only [List.length_append, List.length_cons, List.length_nil]
        omega

lemma aptWF_foldl (g : GeoFns) (ops : List BuildOp) :
    ∀ apt : Apt, aptWF apt → aptWF (ops.foldl (applyOp g) apt) := by
  induction ops with
  | nil => exact fun apt h => h
  | cons op rest ih =>
    intro apt h
    rw [List.foldl_cons]
    refine ih _ ?_
    cases op with
    | node lat lon => exact aptWF_addTaxiNode g apt lat lon h
    | edge i j d => exact aptWF_addTaxiEdge g apt i j d h
    | rwy lat1 lon1 d1 id1 lat2 lon2 d2 id2 =>
      exact aptWF_addRwyEnds g apt lat1 lon1 d1 id1 lat2 lon2 d2 id2 h

/-- **C10**: in every airport built through the public construction
operations (`AddTaxiNode`, `AddTaxiEdge`, `AddRwyEnds`), each edge's two
node indices are in range for the sequence selected by the edge's type —
`RUN_WAY` edges index the runway-endpoint sequence, others the taxi-node
sequence — so the unchecked endpoint lookups `GetA`/`GetB` always find a
node. -/
theorem C10_built_edge_indices_safe (g : GeoFns) (ops : List BuildOp)
    (e : TaxiEdge) (he : e ∈ (buildApt g ops).vecTaxiEdges) :
    edgeIndicesOK (buildApt g ops) e ∧
    (getA (buildApt g ops) e).isSome = true ∧
    (getB (buildApt g ops) e).isSome = true := by
  have hwf : aptWF (buildApt g ops) :=
    aptWF_foldl g ops emptyApt (by intro e he; cases he)
  have hok : edgeIndicesOK (buildApt g ops) e := hwf e he
  unfold edgeIndicesOK at hok
  refine ⟨hwf e he, ?_, ?_⟩
  · unfold getA
    by_cases ht : e.type = NodeTy.RUN_WAY
    · rw [if_pos ht] at hok
      rw [if_pos ht, List.getElem?_eq_getElem hok.1]
      rfl
    · rw [if_neg ht] at hok
      rw [if_neg ht, List.getElem?_eq_getElem hok.1]
      rfl
  · unfold getB
    by_cases ht : e.type = NodeTy.RUN_WAY
    · rw [if_pos ht] at hok
      rw [if_pos ht, List.getElem?_eq_getElem hok.2]
      rfl
    · rw [if_neg ht] at hok
      rw [if_neg ht, List.getElem?_eq_getElem hok.2]
      rfl

/-- What `FindClosestEdge`'s loop guarantees of a recorded best candidate:
its from/to nodes resolve (honouring the inversion flag), carry local
coordinates, its distance result is the point-to-segment computation at
those coordinates, the squared line distance is strictly within
`maxDist²`, and the base point's squared excursion beyond the segment ends
is within that same `maxDist²`. -/
def candOK (maxDist2 pt_x pt_z : ℚ) (apt : Apt) (inverted : Bool)
    (b : BestCand) : Prop :=
  ∃ fn tn,
    (if inverted then getB apt b.e else getA apt b.e) = some fn ∧
    (if inverted then getA apt b.e else getB apt b.e) = some tn ∧
    fn.x = some b.fx ∧ fn.z = some b.fz ∧ tn.x = some b.tx ∧ tn.z = some b.tz ∧
    b.d = distPointToLineSqr pt_x pt_z b.fx b.fz b.tx b.tz ∧
    b.d.dist2 < maxDist2 ∧ b.d.distSqrOfBaseBeyondLine ≤ maxDist2

lemma candStep_some (m px pz : ℚ) (apt : Apt) (inv : Bool)
    (st : Option BestCand) (e : TaxiEdge) (b' : BestCand)
    (hst : ∀ b, st = some b → candOK m px pz apt inv b)
    (h : candStep m px pz apt inv st e = some b') :
    candOK m px pz apt inv b' := by
  unfold candStep at h
  cases hf : (if inv then getB apt e else getA apt e) with
  | none => rw [hf] at h; exact hst b' h
  | some fn =>
    cases hg : (if inv then getA apt e else getB apt e) with
    | none => rw [hf, hg] at h; exact hst b' h
    | some tn =>
      rw [hf, hg] at h
      dsimp only at h
      cases hfx : fn.x with
      | none => rw [hfx] at h; exact hst b' h
      | some fx =>
        cases hfz : fn.z with
        | none => rw [hfx, hfz] at h; exact hst b' h
        | some fz =>
          cases htx : tn.x with
          | none => rw [hfx, hfz, htx] at h; exact hst b' h
          | some tx =>
            cases htz : tn.z with
            | none => rw [hfx, hfz, htx, htz] at h; exact hst b' h
            | some tz =>
              rw [hfx, hfz, htx, htz] at h
              dsimp only at h
              cases hstc : st with
              | none =>
                rw [hstc] at h
                dsimp only at h
                by_cases h1 : (distPointToLineSqr px pz fx fz tx tz).dist2 ≥ m
                · rw [if_pos h1] at h; simp at h
                · rw [if_neg h1] at h
                  by_cases h2 : (distPointToLineSqr px pz fx fz tx
                      tz).distSqrOfBaseBeyondLine > m
                  · rw [if_pos h2] at h; simp at h
                  · rw [if_neg h2] at h
                    have hb' : b' =
                        ⟨e, fx, fz, tx, tz, distPointToLineSqr px pz fx fz tx tz⟩ :=
                      (Option.some_injective _ h).symm
                    subst hb'
                    exact ⟨fn, tn, hf, hg, hfx, hfz, htx, htz, rfl,
                      lt_of_not_ge h1, le_of_not_lt h2⟩
              | some b0 =>
                rw [hstc] at h
                dsimp only at h
                rcases hst b0 hstc with ⟨fn0, tn0, k1, k2, k3, k4, k5, k6, k7, k8, k9⟩
                by_cases h1 : (distPointToLineSqr px pz fx fz tx tz).dist2 ≥ b0.d.dist2
                · rw [if_pos h1] at h
                  have hb' : b' = b0 := (Option.some_injective _ h).symm
                  subst hb'
                  exact ⟨fn0, tn0, k1, k2, k3, k4, k5, k6, k7, k8, k9⟩
                · rw [if_neg h1] at h
                  by_cases h2 : (distPointToLineSqr px pz fx fz tx
                      tz).distSqrOfBaseBeyondLine > m
                  · rw [if_pos h2] at h
                    have hb' : b' = b0 := (Option.some_injective _ h).symm
                    subst hb'
                    exact ⟨fn0, tn0, k1, k2, k3, k4, k5, k6, k7, k8, k9⟩
                  · rw [if_neg h2] at h
                    have hb' : b' =
                        ⟨e, fx, fz, tx, tz, distPointToLineSqr px pz fx fz tx tz⟩ :=
                      (Option.some_injective _ h).symm
                    subst hb'
                    exact ⟨fn, tn, hf, hg, hfx, hfz, htx, htz, rfl,
                      lt_trans (lt_of_not_ge h1) k8, le_of_not_lt h2⟩

lemma foldl_candStep_some (m px pz : ℚ) (apt : Apt) (inv : Bool) :
    ∀ (lst : List TaxiEdge) (st : Option BestCand) (b' : BestCand),
      (∀ b, st = some b → candOK m px pz apt inv b) →
      lst.foldl (candStep m px pz apt inv) st = some b' →
      candOK m px pz apt inv b' := by
  intro lst
  induction lst with
  | nil => exact fun st b' hst h => hst b' h
  | cons e rest ih =>
    intro st b' hst h
    rw [List.foldl_cons] at h
    refine ih _ b' ?_ h
    exact fun b hb => candStep_some m px pz apt inv st e b hst hb

/-- Fixture for C2/C9: a single straight taxiway in local coordinates from
`(x,z) = (0,0)` to `(0,20)` (20 m long), heading stored as 0. -/
def aptSnap : Apt :=
  { id := ['S'], bounds := bbox0, alt_m := none,
    vecTaxiNodes :=
      [⟨some 0, some 0, some 0, some 0⟩, ⟨some 0, some 1, some 0, some 20⟩],
    vecRwyEndPts := [], vecTaxiEdges := [⟨.TAXI_WAY, 0, 1, 0, 20⟩] }

/-- Fixture for C2/C9: world (lat, lon, alt) maps to local
`(x, y, z) = (lon, alt, lat)` and back; `sqrt(4/25) = 2/5` is the only
square root the scenario takes. -/
def gSnap : GeoFns :=
  { gTriv with
    worldToLocal := fun lat lon alt => (lon, alt, lat)
    localToWorld := fun p => (p.2.2, p.1, p.2.1)
    sqrtQ := fun q => if q = 4 / 25 then 2 / 5 else 0 }

/-- C2 scenario 1: 3 m laterally off the segment (projection inside). -/
def posC2a : PositionR := ⟨8, 3, 0, 0, 0, 0, 0, 0, 0⟩

/-- C2 scenario 2: 3 m laterally off, projection 6 m past the far end. -/
def posC2b : PositionR := ⟨26, 3, 0, 0, 0, 0, 0, 0, 0⟩

/-- **C2**: `FindClosestEdge` keeps a candidate only if its squared
point-to-line distance is strictly within `maxDist²` AND the closest
point's squared excursion beyond the segment ends
(`DistSqrOfBaseBeyondLine`) is within that same squared tolerance.
Concretely (taxiway `(0,0)–(0,20)`, aligned heading, `maxDist = 5`): a
query 3 m laterally off with the projection inside returns the edge with
the base point equal to the perpendicular projection (world `(8,0)` —
latitude kept, longitude snapped from 3 to 0); a query 3 m off whose
projection lies 6 m past the end returns no match. -/
theorem C2_findClosestEdge_tolerance (g : GeoFns) (apt : Apt)
    (pos : PositionR) (maxDist tol : ℚ) :
    (∀ e nlat nlon,
      findClosestEdge g apt pos maxDist tol = some (e, nlat, nlon) →
      ∃ fn tn fx fz tx tz,
        (if hNormQ pos.heading ≥ 180 then getB apt e else getA apt e) = some fn ∧
        (if hNormQ pos.heading ≥ 180 then getA apt e else getB apt e) = some tn ∧
        fn.x = some fx ∧ fn.z = some fz ∧ tn.x = some tx ∧ tn.z = some tz ∧
        (distPointToLineSqr (g.worldToLocal pos.lat pos.lon pos.alt).1
            (g.worldToLocal pos.lat pos.lon pos.alt).2.2
            fx fz tx tz).dist2 < maxDist ^ 2 ∧
        (distPointToLineSqr (g.worldToLocal pos.lat pos.lon pos.alt).1
            (g.worldToLocal pos.lat pos.lon pos.alt).2.2
            fx fz tx tz).distSqrOfBaseBeyondLine ≤ maxDist ^ 2) ∧
    findClosestEdge gSnap aptSnap posC2a 5 10 =
      some (⟨.TAXI_WAY, 0, 1, 0, 20⟩, 8, 0) ∧
    findClosestEdge gSnap aptSnap posC2b 5 10 = none := by
  refine ⟨?_, by with_unfolding_all decide, by with_unfolding_all decide⟩
  intro e nlat nlon h
  unfold findClosestEdge at h
  dsimp only at h
  by_cases hemp : findEdgesForHeading apt.vecTaxiEdges (hNormQ pos.heading) tol
      .UNKNOWN_WAY = []
  · rw [if_pos hemp] at h
    cases h
  · rw [if_neg hemp] at h
    cases hfold : (findEdgesForHeading apt.vecTaxiEdges (hNormQ pos.heading) tol
        .UNKNOWN_WAY).foldl
        (candStep (maxDist ^ 2) (g.worldToLocal pos.lat pos.lon pos.alt).1
          (g.worldToLocal pos.lat pos.lon pos.alt).2.2 apt
          (hNormQ pos.heading ≥ 180 : Bool)) none with
    | none => rw [hfold] at h; cases h
    | some b =>
      rw [hfold] at h
      dsimp only at h
      have hb := foldl_candStep_some _ _ _ apt _ _ none b
        (by intro b0 hb0; cases hb0) hfold
      rcases hb with ⟨fn, tn, h1, h2, h3, h4, h5, h6, h7, h8, h9⟩
      have hbe : b.e = e := congrArg (fun x => x.1) (Option.some_injective _ h)
      subst hbe
      refine ⟨fn, tn, b.fx, b.fz, b.tx, b.tz, ?_, ?_, h3, h4, h5, h6, ?_, ?_⟩
      · simpa using h1
      · simpa using h2
      · rw [← h7]; exact h8
      · rw [← h7]; exact h9
def opsC10 : List BuildOp :=
  [.node (some 0) (some 0), .node (some 1) (some 1), .edge 0 1 (some 5),
   .rwy 0 0 0 ['0', '9'] 1 1 0 ['2', '7']]

/-- Witness for C10: the runway edge of a concretely built airport indexes
the runway-endpoint sequence in range, and `GetA`/`GetB` find its nodes. -/
theorem C10_built_edge_indices_safe_witness :
    edgeIndicesOK (buildApt gTriv opsC10) ⟨.RUN_WAY, 0, 1, 0, 0⟩ ∧
    (getA (buildApt gTriv opsC10) ⟨.RUN_WAY, 0, 1, 0, 0⟩).isSome = true ∧
    (getB (buildApt gTriv opsC10) ⟨.RUN_WAY, 0, 1, 0, 0⟩).isSome = true :=
  C10_built_edge_indices_safe gTriv opsC10 ⟨.RUN_WAY, 0, 1, 0, 0⟩
    (by with_unfolding_all decide)

/-- **C9**: when the snap operation reports no match (`false`) — including
when snapping is configured off (`snapDist ≤ 0`) or the position lies in no
airport's bounding box — the passed-in position is returned entirely
unchanged; the altitude, timestamp, heading, pitch and roll are unchanged
in *every* case; and on a match (`true`) only latitude and longitude are
overwritten with the base point, plus the flight-phase tag exactly when the
matched edge is not a runway. -/
theorem C9_ltAptSnap_frame_effect (g : GeoFns) (apts : List Apt)
    (snapDist tol : ℚ) (pos : PositionR) :
    (snapDist ≤ 0 → ltAptSnap g apts snapDist tol pos = (false, pos)) ∧
    (ltAptFind g apts pos = none →
      ltAptSnap g apts snapDist tol pos = (false, pos)) ∧
    ((ltAptSnap g apts snapDist tol pos).1 = false →
      (ltAptSnap g apts snapDist tol pos).2 = pos) ∧
    ((ltAptSnap g apts snapDist tol pos).2.alt = pos.alt ∧
      (ltAptSnap g apts snapDist tol pos).2.ts = pos.ts ∧
      (ltAptSnap g apts snapDist tol pos).2.heading = pos.heading ∧
      (ltAptSnap g apts snapDist tol pos).2.pitch = pos.pitch ∧
      (ltAptSnap g apts snapDist tol pos).2.roll = pos.roll) ∧
    ((ltAptSnap g apts snapDist tol pos).1 = true →
      ∃ apt e nlat nlon,
        ltAptFind g apts pos = some apt ∧
        findClosestEdge g apt pos snapDist tol = some (e, nlat, nlon) ∧
        (ltAptSnap g apts snapDist tol pos).2 =
          { pos with
            lat := nlat
            lon := nlon
            flightPhase :=
              if e.type ≠ NodeTy.RUN_WAY then FPH_TAXI else pos.flightPhase }) := by
  unfold ltAptSnap
  by_cases hs : snapDist ≤ 0
  · rw [if_pos hs]
    exact ⟨fun _ => rfl, fun _ => rfl, fun _ => rfl, ⟨rfl, rfl, rfl, rfl, rfl⟩,
      fun hT => absurd hT (by simp)⟩
  · rw [if_neg hs]
    cases hfind : ltAptFind g apts pos with
    | none =>
      dsimp only
      exact ⟨fun hcon => absurd hcon hs, fun _ => rfl, fun _ => rfl,
        ⟨rfl, rfl, rfl, rfl, rfl⟩, fun hT => absurd hT (by simp)⟩
    | some apt =>
      dsimp only
      unfold snapToTaxiway
      cases hfce : findClosestEdge g apt pos snapDist tol with
      | none =>
        dsimp only
        exact ⟨fun hcon => absurd hcon hs,
          fun hcon => absurd hcon (by simp),
          fun _ => rfl, ⟨rfl, rfl, rfl, rfl, rfl⟩,
          fun hT => absurd hT (by simp)⟩
      | some t =>
        obtain ⟨e, nlat, nlon⟩ := t
        dsimp only
        refine ⟨fun hcon => absurd hcon hs,
          fun hcon => absurd hcon (by simp),
          fun hcon => absurd hcon (by by_cases hty : e.type = NodeTy.RUN_WAY <;>
            simp [hty]),
          ?_, ?_⟩
        · by_cases hty : e.type = NodeTy.RUN_WAY <;> simp [hty]
        · intro _
          refine ⟨apt, e, nlat, nlon, rfl, hfce, ?_⟩
          by_cases hty : e.type = NodeTy.RUN_WAY <;> simp [hty]

lemma thinLoop_erase_two (g : GeoFns) (p0 p1 p2 p3 p4 : ℚ × ℚ) (apt : Apt)
    (h01 : g.distLatLonSqr p0.1 p0.2 p1.1 p1.2 = 4)
    (h02 : g.distLatLonSqr p0.1 p0.2 p2.1 p2.2 = 16) :
    thinLoop g [p0, p1, p2, p3, p4] apt = ([p0, p3, p4], apt) := by
  rw [thinLoop, h01,
    if_pos (by norm_num [APT_MIN_TAXI_SEGM_LEN_M2] : (4:ℚ) < APT_MIN_TAXI_SEGM_LEN_M2),
    thinLoop, h02,
    if_pos (by norm_num [APT_MIN_TAXI_SEGM_LEN_M2] : (16:ℚ) < APT_MIN_TAXI_SEGM_LEN_M2),
    thinLoop]
  intro a b c d rest hcon
  simp at hcon

/-- **C3**: centerline thinning of 5 colinear points each 2 m apart (the
hypotheses fix the planar-estimator distances of those points: consecutive
gaps 2 m, so `d²(p0,p2) = 16`, `d²(p0,p3) = 36`, and `√36 = 6`, `√4 = 2`)
produces exactly two taxi nodes — the first and the last input point —
connected by exactly one edge whose stored length is 8 = 2+2+2+2 m, the
sum of the four sub-segment lengths, rather than 4 separate edges. -/
theorem C3_centerline_thinning (g : GeoFns) (p0 p1 p2 p3 p4 : ℚ × ℚ)
    (h01 : g.distLatLonSqr p0.1 p0.2 p1.1 p1.2 = 4)
    (h02 : g.distLatLonSqr p0.1 p0.2 p2.1 p2.2 = 16)
    (h03 : g.distLatLonSqr p0.1 p0.2 p3.1 p3.2 = 36)
    (h34 : g.distLatLonSqr p3.1 p3.2 p4.1 p4.2 = 4)
    (hs36 : g.sqrtQ 36 = 6) (hs4 : g.sqrtQ 4 = 2) :
    (processTaxiNodes g [p0, p1, p2, p3, p4] emptyApt).vecTaxiNodes =
      [⟨some p0.1, some p0.2, none, none⟩,
       ⟨some p4.1, some p4.2, none, none⟩] ∧
    (processTaxiNodes g [p0, p1, p2, p3, p4] emptyApt).vecTaxiEdges =
      [mkTaxiEdge .TAXI_WAY 0 1 (g.coordAngle p0.1 p0.2 p4.1 p4.2) 8] ∧
    ∀ e ∈ [mkTaxiEdge .TAXI_WAY 0 1 (g.coordAngle p0.1 p0.2 p4.1 p4.2) 8],
      e.dist_m = 2 + 2 + 2 + 2 := by
  have hkey : processTaxiNodes g [p0, p1, p2, p3, p4] emptyApt =
      (addTaxiEdge g
        (addTaxiNode g
          ((addTaxiNode g emptyApt (some p0.1) (some p0.2)).2)
          (some p4.1) (some p4.2)).2 0 1 (some 8)).2 := by
    unfold processTaxiNodes
    dsimp only
    rw [if_pos (show ([p2, p3, p4] : List (ℚ × ℚ)).length ≥ 1 by simp)]
    rw [thinLoop_erase_two g p0 p1 p2 p3 p4 _ h01 h02]
    dsimp only
    rw [h03, h34,
      if_pos (Or.inl
        (by norm_num [APT_MIN_TAXI_SEGM_LEN_M2] :
          (36:ℚ) < APT_MIN_TAXI_SEGM_LEN_M2)),
      hs36, hs4]
    dsimp only
    unfold addTaxiNode
    dsimp only
    norm_num [emptyApt, mkApt]
  rw [hkey]
  unfold addTaxiEdge
  rw [if_neg (by
    unfold addTaxiNode
    simp)]
  constructor
  · rfl
  constructor
  · rfl
  · intro e he
    rw [List.mem_singleton] at he
    subst he
    unfold mkTaxiEdge
    split <;> norm_num

/-- Fixture for the C3 witness: the planar estimator measures the latitude
axis (`d² = (Δlat)²`, the spec's formula restricted to one meridian), and
the two square roots the run takes are tabulated. -/
def gC3 : GeoFns :=
  { gTriv with
    distLatLonSqr := fun lat1 _ lat2 _ => (lat2 - lat1) ^ 2
    sqrtQ := fun q => if q = 36 then 6 else if q = 4 then 2 else 0 }

/-- Witness for C3: five concrete colinear points 2 m apart thin to the
first and last point joined by one 8 m edge. -/
theorem C3_centerline_thinning_witness :
    (processTaxiNodes gC3 [(0, 0), (2, 0), (4, 0), (6, 0), (8, 0)]
        emptyApt).vecTaxiNodes =
      [⟨some 0, some 0, none, none⟩, ⟨some 8, some 0, none, none⟩] ∧
    (processTaxiNodes gC3 [(0, 0), (2, 0), (4, 0), (6, 0), (8, 0)]
        emptyApt).vecTaxiEdges =
      [mkTaxiEdge .TAXI_WAY 0 1 (gC3.coordAngle 0 0 8 0) 8] ∧
    ∀ e ∈ [mkTaxiEdge .TAXI_WAY 0 1 (gC3.coordAngle 0 0 8 0) 8],
      e.dist_m = 2 + 2 + 2 + 2 :=
  C3_centerline_thinning gC3 (0, 0) (2, 0) (4, 0) (6, 0) (8, 0)
    (by with_unfolding_all decide) (by with_unfolding_all decide)
    (by with_unfolding_all decide) (by with_unfolding_all decide)
    (by with_unfolding_all decide) (by with_unfolding_all decide)

/-- The implied descent rate of a candidate endpoint: altitude delta over
(distance over approach speed), exactly as `LTAptFindRwy` computes it. -/
def impliedVsi (g : GeoFns) (fromPos : PositionR) (speed alt : ℚ)
    (ep : RwyEndPt) : ℚ :=
  (alt - fromPos.alt) /
    (g.coordDistance fromPos.lat fromPos.lon ep.lat ep.lon / speed)

/-- What `LTAptFindRwy`'s loop guarantees of a recorded best match: its
endpoint's altitude is known and the implied descent rate lies inside the
permitted vertical-speed envelope. -/
def rwyOK (g : GeoFns) (fromPos : PositionR) (speed vsi_min vsi_max : ℚ)
    (b : RwyBest) : Prop :=
  ∃ alt, b.ep.alt_m = some alt ∧
    vsi_min ≤ impliedVsi g fromPos speed alt b.ep ∧
    impliedVsi g fromPos speed alt b.ep ≤ vsi_max

lemma rwyCandStep_inv (g : GeoFns) (fromPos : PositionR)
    (speed vsi_min vsi_max : ℚ) (apt : Apt) (inv : Bool)
    (st : ℚ × Option RwyBest) (e : TaxiEdge)
    (hst : ∀ b, st.2 = some b → rwyOK g fromPos speed vsi_min vsi_max b) :
    ∀ b', (rwyCandStep g fromPos speed vsi_min vsi_max apt inv st e).2 = some b' →
      rwyOK g fromPos speed vsi_min vsi_max b' := by
  intro b' h
  unfold rwyCandStep at h
  cases hep : rwyEpOf apt inv e with
  | none => rw [hep] at h; exact hst b' h
  | some ep =>
    rw [hep] at h
    dsimp only at h
    cases halt : ep.alt_m with
    | none => rw [halt] at h; exact hst b' h
    | some alt =>
      rw [halt] at h
      dsimp only at h
      by_cases h1 : |headingDiffQ fromPos.heading
          (g.coordAngle fromPos.lat fromPos.lon ep.lat ep.lon)| > st.1
      · rw [if_pos h1] at h; exact hst b' h
      · rw [if_neg h1] at h
        by_cases h2 : (alt - fromPos.alt) /
            (g.coordDistance fromPos.lat fromPos.lon ep.lat ep.lon / speed) < vsi_min ∨
            (alt - fromPos.alt) /
            (g.coordDistance fromPos.lat fromPos.lon ep.lat ep.lon / speed) > vsi_max
        · rw [if_pos h2] at h; exact hst b' h
        · rw [if_neg h2] at h
          push_neg at h2
          dsimp only at h
          have hb' : b' = ⟨e, ep, _, _⟩ := (Option.some_injective _ h).symm
          subst hb'
          exact ⟨alt, halt, h2.1, h2.2⟩

lemma rwyFoldEdges_inv (g : GeoFns) (fromPos : PositionR)
    (speed vsi_min vsi_max : ℚ) (apt : Apt) (inv : Bool) :
    ∀ (lst : List TaxiEdge) (st : ℚ × Option RwyBest),
      (∀ b, st.2 = some b → rwyOK g fromPos speed vsi_min vsi_max b) →
      ∀ b', (lst.foldl (rwyCandStep g fromPos speed vsi_min vsi_max apt inv) st).2 =
          some b' →
        rwyOK g fromPos speed vsi_min vsi_max b' := by
  intro lst
  induction lst with
  | nil => exact fun st hst b' h => hst b' h
  | cons e rest ih =>
    intro st hst b' h
    rw [List.foldl_cons] at h
    exact ih _ (rwyCandStep_inv g fromPos speed vsi_min vsi_max apt inv st e hst) b' h

lemma rwyFoldApts_inv (g : GeoFns) (fromPos : PositionR)
    (speed vsi_min vsi_max headSearch maxHeadDiff : ℚ) (inv : Bool) :
    ∀ (apts : List Apt) (st : ℚ × Option RwyBest),
      (∀ b, st.2 = some b → rwyOK g fromPos speed vsi_min vsi_max b) →
      ∀ b', (apts.foldl
          (fun st apt =>
            (findEdgesForHeading apt.vecTaxiEdges headSearch maxHeadDiff .RUN_WAY).foldl
              (rwyCandStep g fromPos speed vsi_min vsi_max apt inv) st) st).2 =
          some b' →
        rwyOK g fromPos speed vsi_min vsi_max b' := by
  intro apts
  induction apts with
  | nil => exact fun st hst b' h => hst b' h
  | cons apt rest ih =>
    intro st hst b' h
    rw [List.foldl_cons] at h
    exact ih _ (fun b hb => rwyFoldEdges_inv g fromPos speed vsi_min vsi_max apt inv
      _ st hst b hb) b' h

/-- A candidate endpoint whose implied descent rate leaves the envelope is
never recorded. -/
lemma rwyCandStep_none (g : GeoFns) (fromPos : PositionR)
    (speed vsi_min vsi_max : ℚ) (apt : Apt) (inv : Bool)
    (st : ℚ × Option RwyBest) (e : TaxiEdge)
    (hout : ∀ ep, rwyEpOf apt inv e = some ep → ∀ alt, ep.alt_m = some alt →
      (impliedVsi g fromPos speed alt ep < vsi_min ∨
        vsi_max < impliedVsi g fromPos speed alt ep))
    (hst : st.2 = none) :
    (rwyCandStep g fromPos speed vsi_min vsi_max apt inv st e).2 = none := by
  unfold rwyCandStep
  cases hep : rwyEpOf apt inv e with
  | none => exact hst
  | some ep =>
    dsimp only
    cases halt : ep.alt_m with
    | none => exact hst
    | some alt =>
      dsimp only
      by_cases h1 : |headingDiffQ fromPos.heading
          (g.coordAngle fromPos.lat fromPos.lon ep.lat ep.lon)| > st.1
      · rw [if_pos h1]; exact hst
      · rw [if_neg h1]
        rw [if_pos ?_]
        · exact hst
        · have := hout ep hep alt halt
          unfold impliedVsi at this
          rcases this with hv | hv
          · exact Or.inl hv
          · exact Or.inr hv

lemma rwyFoldEdges_none (g : GeoFns) (fromPos : PositionR)
    (speed vsi_min vsi_max : ℚ) (apt : Apt) (inv : Bool) :
    ∀ (lst : List TaxiEdge) (st : ℚ × Option RwyBest),
      (∀ e ∈ lst, ∀ ep, rwyEpOf apt inv e = some ep →
        ∀ alt, ep.alt_m = some alt →
          (impliedVsi g fromPos speed alt ep < vsi_min ∨
            vsi_max < impliedVsi g fromPos speed alt ep)) →
      st.2 = none →
      (lst.foldl (rwyCandStep g fromPos speed vsi_min vsi_max apt inv) st).2 =
        none := by
  intro lst
  induction lst with
  | nil => exact fun st _ hst => hst
  | cons e rest ih =>
    intro st hout hst
    rw [List.foldl_cons]
    exact ih _ (fun e2 he2 => hout e2 (List.mem_cons_of_mem e he2))
      (rwyCandStep_none g fromPos speed vsi_min vsi_max apt inv st e
        (hout e (List.mem_cons_self e rest)) hst)

lemma rwyFoldApts_none (g : GeoFns) (fromPos : PositionR)
    (speed vsi_min vsi_max headSearch maxHeadDiff : ℚ) (inv : Bool) :
    ∀ (apts : List Apt) (st : ℚ × Option RwyBest),
      (∀ apt ∈ apts,
        ∀ e ∈ findEdgesForHeading apt.vecTaxiEdges headSearch maxHeadDiff .RUN_WAY,
        ∀ ep, rwyEpOf apt inv e = some ep → ∀ alt, ep.alt_m = some alt →
          (impliedVsi g fromPos speed alt ep < vsi_min ∨
            vsi_max < impliedVsi g fromPos speed alt ep)) →
      st.2 = none →
      (apts.foldl
        (fun st apt =>
          (findEdgesForHeading apt.vecTaxiEdges headSearch maxHeadDiff .RUN_WAY).foldl
            (rwyCandStep g fromPos speed vsi_min vsi_max apt inv) st) st).2 =
        none := by
  intro apts
  induction apts with
  | nil => exact fun st _ hst => hst
  | cons apt rest ih =>
    intro st hout hst
    rw [List.foldl_cons]
    exact ih _ (fun a ha => hout a (List.mem_cons_of_mem apt ha))
      (rwyFoldEdges_none g fromPos speed vsi_min vsi_max apt inv _ st
        (hout apt (List.mem_cons_self apt rest)) hst)

/-- Fixture for C4's scenarios: every bearing is 10° (so both candidates
sit at the same heading deviation from the aircraft's heading 0°), and the
distance is 5000 m to the endpoint at latitude 1 and 10000 m otherwise. -/
def gRwySel : GeoFns :=
  { gTriv with
    coordAngle := fun _ _ _ _ => 10
    coordDistance := fun _ _ lat2 _ => if lat2 = 1 then 5000 else 10000 }

/-- C4 fixture: the endpoint whose implied descent rate is inside the
envelope (altitude 500 m, 5000 m away ⇒ −5 m/s at 50 m/s). -/
def epNear : RwyEndPt := ⟨['0', '9'], 1, 0, some 500, none, none, none⟩

/-- C4 fixture: the far end of the first runway (altitude unknown). -/
def epNearFar : RwyEndPt := ⟨['2', '7'], 3, 0, none, none, none, none⟩

/-- C4 fixture: the endpoint whose implied descent rate is outside the
envelope (altitude 900 m, 10000 m away ⇒ −0.5 m/s, shallower than the
−2.5 m/s envelope roof). -/
def epFar : RwyEndPt := ⟨['1', '0'], 2, 0, some 900, none, none, none⟩

/-- C4 fixture: the far end of the second runway. -/
def epFarFar : RwyEndPt := ⟨['2', '8'], 4, 0, none, none, none, none⟩

/-- C4 fixture: like `epNear` but with altitude 990 m, whose −0.1 m/s
descent rate is outside the envelope. -/
def epNearOut : RwyEndPt := ⟨['0', '9'], 1, 0, some 990, none, none, none⟩

/-- C4 fixture: airport listing the in-envelope runway first. -/
def aptRwyA : Apt :=
  { id := ['A'], bounds := bbox0, alt_m := none, vecTaxiNodes := [],
    vecRwyEndPts := [epNear, epNearFar, epFar, epFarFar],
    vecTaxiEdges := [⟨.RUN_WAY, 0, 1, 0, 1000⟩, ⟨.RUN_WAY, 2, 3, 0, 1000⟩] }

/-- C4 fixture: the same airport with the candidate order reversed. -/
def aptRwyB : Apt :=
  { aptRwyA with
    vecTaxiEdges := [⟨.RUN_WAY, 2, 3, 0, 1000⟩, ⟨.RUN_WAY, 0, 1, 0, 1000⟩] }

/-- C4 fixture: both candidates outside the envelope. -/
def aptRwyOut : Apt :=
  { aptRwyA with vecRwyEndPts := [epNearOut, epNearFar, epFar, epFarFar] }

/-- C4 fixture: the aircraft, at altitude 1000 m heading 0°. -/
def fromRwy : PositionR := ⟨0, 0, 1000, 0, 0, 0, 0, 0, 0⟩

/-- **C4**: the runway selector never returns a candidate whose implied
descent rate (altitude delta over distance-over-approach-speed) lies
outside the vertical-speed envelope `[vsi_min, vsi_max]`; if every
candidate's rate is outside, it returns none; and in the concrete
two-candidate scenario with equal heading deviation (10°) where only the
first-listed (or only the second-listed) candidate is inside the envelope,
the inside one is returned regardless of candidate order and distance,
while the all-outside variant returns none. -/
theorem C4_runway_selector_envelope (g : GeoFns) (apts : List Apt)
    (fromPos : PositionR)
    (speed vsi_min vsi_max maxHeadDiff acSpeed flapsDownCap vsiFinal
      maxVsiF msPerFtm pitchFlare : ℚ) :
    (∀ b, ltAptFindRwyCore g apts fromPos speed vsi_min vsi_max maxHeadDiff =
        some b →
      ∃ alt, b.ep.alt_m = some alt ∧
        vsi_min ≤ impliedVsi g fromPos speed alt b.ep ∧
        impliedVsi g fromPos speed alt b.ep ≤ vsi_max) ∧
    ((∀ apt ∈ apts,
        ∀ e ∈ findEdgesForHeading apt.vecTaxiEdges
          (if hNormQ fromPos.heading ≥ 180 then hNormQ fromPos.heading - 180
            else hNormQ fromPos.heading) maxHeadDiff .RUN_WAY,
        ∀ ep, rwyEpOf apt (hNormQ fromPos.heading ≥ 180) e = some ep →
        ∀ alt, ep.alt_m = some alt →
          (impliedVsi g fromPos speed alt ep < vsi_min ∨
            vsi_max < impliedVsi g fromPos speed alt ep)) →
      ltAptFindRwyCore g apts fromPos speed vsi_min vsi_max maxHeadDiff = none) ∧
    (ltAptFindRwy g apts fromPos acSpeed flapsDownCap vsiFinal maxVsiF
        msPerFtm maxHeadDiff pitchFlare = none ↔
      ltAptFindRwyCore g apts fromPos (min acSpeed flapsDownCap)
        (vsiFinal * maxVsiF * msPerFtm) (vsiFinal / maxVsiF * msPerFtm)
        maxHeadDiff = none) ∧
    (ltAptFindRwy gRwySel [aptRwyA] fromRwy 50 100 (-5) 2 1 45 7 =
      some ⟨1, 0, 500, 100, 0, 7, 0, GND_ON, FPH_TOUCH_DOWN⟩ ∧
     ltAptFindRwy gRwySel [aptRwyB] fromRwy 50 100 (-5) 2 1 45 7 =
      some ⟨1, 0, 500, 100, 0, 7, 0, GND_ON, FPH_TOUCH_DOWN⟩ ∧
     ltAptFindRwy gRwySel [aptRwyOut] fromRwy 50 100 (-5) 2 1 45 7 = none) := by
  refine ⟨?_, ?_, ?_, by with_unfolding_all decide, by with_unfolding_all decide,
    by with_unfolding_all decide⟩
  · intro b h
    unfold ltAptFindRwyCore at h
    exact rwyFoldApts_inv g fromPos speed vsi_min vsi_max _ maxHeadDiff _ apts
      (maxHeadDiff, none) (fun b0 hb0 => by cases hb0) b h
  · intro hout
    unfold ltAptFindRwyCore
    exact rwyFoldApts_none g fromPos speed vsi_min vsi_max _ maxHeadDiff _ apts
      (maxHeadDiff, none) hout rfl
  · unfold ltAptFindRwy
    cases hc : ltAptFindRwyCore g apts fromPos (min acSpeed flapsDownCap)
        (vsiFinal * maxVsiF * msPerFtm) (vsiFinal / maxVsiF * msPerFtm)
        maxHeadDiff with
    | none => dsimp only; rw [hc]; simp
    | some b => dsimp only; rw [hc]; simp

lemma insertByAngle_ne_nil (e : TaxiEdge) (l : List TaxiEdge) :
    insertByAngle e l ≠ [] := by
  cases l with
  | nil => simp [insertByAngle]
  | cons f rest =>
    unfold insertByAngle
    split <;> simp

lemma sortEdges_eq_nil_iff (l : List TaxiEdge) :
    sortEdgesByAngle l = [] ↔ l = [] := by
  cases l with
  | nil => simp [sortEdgesByAngle]
  | cons e rest =>
    simp only [sortEdgesByAngle, List.foldr_cons]
    constructor
    · intro h
      exact absurd h (insertByAngle_ne_nil e _)
    · intro h
      cases h

/-- `Apt::AddApt` inserts only what it was given: every entry of the
result was already in the registry or is the (bounds-enlarged,
edge-sorted) airport, which is valid whenever the argument was. -/
lemma addApt_mem (g : GeoFns) (sm : ℚ) (apt : Apt) (reg : Registry)
    (hv : apt.isValid = true) :
    ∀ p ∈ addApt g sm apt reg, p ∈ reg ∨ p.2.isValid = true := by
  intro p hp
  unfold addApt at hp
  dsimp only at hp
  cases hl : List.lookup
      ({ apt with
        bounds := g.enlargeM apt.bounds sm
        vecTaxiEdges := sortEdgesByAngle apt.vecTaxiEdges } : Apt).id reg with
  | some q => rw [hl] at hp; exact Or.inl hp
  | none =>
    rw [hl] at hp
    rw [List.mem_append] at hp
    rcases hp with hp | hp
    · exact Or.inl hp
    · rw [List.mem_singleton] at hp
      subst hp
      refine Or.inr ?_
      unfold Apt.isValid Apt.hasId Apt.hasTaxiWays Apt.hasRwyEndpoints at hv ⊢
      dsimp only at hv ⊢
      rwa [show (decide (sortEdgesByAngle apt.vecTaxiEdges ≠ [])) =
          (decide (apt.vecTaxiEdges ≠ [])) from
        decide_eq_decide.mpr (not_congr (sortEdges_eq_nil_iff _))]

/-- One parser dispatch touches the registry only through the guarded
`AddApt` of a valid airport. -/
lemma dispatchLine_mem (g : GeoFns) (P : ParseFns) (box : BoundingBoxR)
    (sm : ℚ) (ln : List Char) (rest : List (List Char)) (st : ParseState) :
    ∀ p ∈ (dispatchLine g P box sm ln rest st).2.2.reg,
      p ∈ st.reg ∨ p.2.isValid = true := by
  intro p hp
  unfold dispatchLine at hp
  by_cases h1 : isAptHeaderLine ln = true
  · rw [if_pos h1] at hp
    dsimp only at hp
    by_cases hv : st.apt.isValid = true
    · rw [if_pos hv] at hp
      exact addApt_mem g sm st.apt st.reg hv p hp
    · rw [if_neg hv] at hp
      exact Or.inl hp
  · rw [if_neg h1] at hp
    by_cases h2 : (st.apt.hasId && isRwyLine ln) = true
    · rw [if_pos h2] at hp
      dsimp only at hp
      by_cases h3 : (strTokenize ln).length = 26
      · rw [if_pos h3] at hp
        by_cases h4 : -90 ≤ P.stod ((strTokenize ln).getD 9 []) ∧
            P.stod ((strTokenize ln).getD 9 []) ≤ 90 ∧
            -180 ≤ P.stod ((strTokenize ln).getD 10 []) ∧
            P.stod ((strTokenize ln).getD 10 []) < 180
        · rw [if_pos h4] at hp
          by_cases h5 : (st.apt.hasTaxiWays ||
              g.containsBB box (posLL (P.stod ((strTokenize ln).getD 9 []))
                (P.stod ((strTokenize ln).getD 10 [])))) = true
          · rw [if_pos h5] at hp
            exact Or.inl hp
          · rw [if_neg h5] at hp
            exact Or.inl hp
        · rw [if_neg h4] at hp
          exact Or.inl hp
      · rw [if_neg h3] at hp
        exact Or.inl hp
    · rw [if_neg h2] at hp
      by_cases h6 : (st.apt.hasRwyEndpoints && isTaxiMarkerLine ln) = true
      · rw [if_pos h6] at hp
        exact Or.inl hp
      · rw [if_neg h6] at hp
        exact Or.inl hp

lemma readAptLoop_mem (g : GeoFns) (P : ParseFns) (box : BoundingBoxR)
    (sm : ℚ) :
    ∀ (fuel : Nat) (pending : Option (List Char)) (lines : List (List Char))
      (st : ParseState),
      ∀ p ∈ (readAptLoop g P box sm fuel pending lines st).reg,
        p ∈ st.reg ∨ p.2.isValid = true := by
  intro fuel
  induction fuel with
  | zero => intro pending lines st p hp; exact Or.inl hp
  | succ n ih =>
    intro pending lines st p hp
    unfold readAptLoop at hp
    cases pending with
    | some ln =>
      dsimp only at hp
      by_cases he : ln = []
      · rw [if_pos he] at hp
        exact ih none lines st p hp
      · rw [if_neg he] at hp
        rcases ih _ _ _ p hp with hin | hval
        · exact dispatchLine_mem g P box sm ln lines st p hin
        · exact Or.inr hval
    | none =>
      cases lines with
      | nil => exact Or.inl hp
      | cons ln rest =>
        dsimp only at hp
        by_cases he : ln = []
        · rw [if_pos he] at hp
          exact ih none rest st p hp
        · rw [if_neg he] at hp
          rcases ih _ _ _ p hp with hin | hval
          · exact dispatchLine_mem g P box sm ln rest st p hin
          · exact Or.inr hval

/-- **C8**: every airport the parser inserts into the registry satisfies
the validity predicate (non-empty identifier, at least one edge, at least
one runway endpoint) — both when a new airport-header line closes out the
previous in-progress airport and when the end of input flushes the last
one; an in-progress airport failing the predicate never reaches the
registry: every entry of the final registry was already there or is
valid. -/
theorem C8_parser_inserts_only_valid (g : GeoFns) (P : ParseFns)
    (box : BoundingBoxR) (snapMargin : ℚ) (lines : List (List Char))
    (reg : Registry) (p : List Char × Apt)
    (hp : p ∈ readOneAptFile g P box snapMargin lines reg) :
    p ∈ reg ∨ p.2.isValid = true := by
  unfold readOneAptFile at hp
  dsimp only at hp
  by_cases hv : (readAptLoop g P box snapMargin (2 * lines.length + 2) none lines
      ⟨emptyApt, reg⟩).apt.isValid = true
  · rw [if_pos hv] at hp
    rcases addApt_mem g snapMargin _ _ hv p hp with hin | hval
    · exact readAptLoop_mem g P box snapMargin _ none lines ⟨emptyApt, reg⟩ p hin
    · exact Or.inr hval
  · rw [if_neg hv] at hp
    exact readAptLoop_mem g P box snapMargin _ none lines ⟨emptyApt, reg⟩ p hp

/-- Number parsers for the C8 witness run (the input's coordinate fields
all stand for 0). -/
def pFix : ParseFns := ⟨fun _ => 0, fun _ => 0⟩

/-- Input of the C8 witness run: one airport-header line and one 26-field
runway line. -/
def linesC8 : List (List Char) :=
  ["1 x y z KXYZ".toList,
   "100 a b c d e f g 09 h i j k l m n o 27 p q r s t u v w".toList]

/-- The airport the C8 witness run inserts: id `KXYZ`, the two runway
endpoints and one runway edge from the runway line. -/
def aptC8 : Apt :=
  { id := "KXYZ".toList, bounds := bbox0, alt_m := none, vecTaxiNodes := [],
    vecRwyEndPts :=
      [⟨"09".toList, 0, 0, none, none, none, none⟩,
       ⟨"27".toList, 0, 0, none, none, none, none⟩],
    vecTaxiEdges := [⟨.RUN_WAY, 0, 1, 0, 0⟩] }

/-- Witness for C8: the airport flushed at end of input in a concrete
two-line parse is valid. -/
theorem C8_parser_inserts_only_valid_witness :
    ("KXYZ".toList, aptC8) ∈ ([] : Registry) ∨ aptC8.isValid = true :=
  C8_parser_inserts_only_valid gTriv pFix bbox0 5 linesC8 []
    ("KXYZ".toList, aptC8) (by with_unfolding_all decide)

end LTApt
